import Mathlib

/-! Overview.
Verification development for the `lsst-dm/amplifier_images` repository.

The Python source is shallowly embedded: each Python class or function of
`src/python/lsst/amplifier_images/` is translated into a Lean definition with
the same name (up to Lean naming rules).  Machine integers are modelled as
`Int`/`Nat` (the Python code uses arbitrary-precision integers throughout).
Runtime failures (assert statements, raised exceptions, argument-arity errors)
are modelled by the `Except PyErr` monad.

External collaborators (`lsst.geom.Box2I`, `numpy` slicing/assignment
semantics, and the `lsst.afw.image` objects) are modelled at their documented
interface; every such place is marked in the doc comment of the definition.
-/

/-- Model of `lsst.geom.Box2I` (external primitive): an integer rectangle
given by its inclusive minimum corner `(x0, y0)` and inclusive maximum corner
`(x1, y1)`.  `getWidth() = x1 - x0 + 1`, `getHeight() = y1 - y0 + 1`. -/
structure Box where
  x0 : Int
  y0 : Int
  x1 : Int
  y1 : Int
deriving DecidableEq, Repr

namespace Box

/-- Source: `Box2I.getWidth()`. -/
def width (b : Box) : Int := b.x1 - b.x0 + 1

/-- Source: `Box2I.getHeight()`. -/
def height (b : Box) : Int := b.y1 - b.y0 + 1

/-- Source: `Box2I.contains(box)`: the argument box lies inside `b`. -/
def contains (b c : Box) : Prop :=
  b.x0 ≤ c.x0 ∧ c.x1 ≤ b.x1 ∧ b.y0 ≤ c.y0 ∧ c.y1 ≤ b.y1

instance : DecidablePred (fun p : Box × Box => p.1.contains p.2) := fun _ => by
  unfold contains; infer_instance

instance (b c : Box) : Decidable (b.contains c) := by
  unfold contains; infer_instance

/-- Source: `Box2I.contains(Point2I(x, y))` for a single pixel. -/
def containsPt (b : Box) (x y : Int) : Prop :=
  b.x0 ≤ x ∧ x ≤ b.x1 ∧ b.y0 ≤ y ∧ y ≤ b.y1

instance (b : Box) (x y : Int) : Decidable (b.containsPt x y) := by
  unfold containsPt; infer_instance

/-- Source: `Box2I.include(box)` on a non-empty box: grow `b` to cover `c`. -/
def union (b c : Box) : Box :=
  ⟨min b.x0 c.x0, min b.y0 c.y0, max b.x1 c.x1, max b.y1 c.y1⟩

/-- Two boxes have equal sizes (`getSize()` equality, used by
`ImageSectionTransform.__post_init__`). -/
def sizeEq (b c : Box) : Prop := b.width = c.width ∧ b.height = c.height

instance (b c : Box) : Decidable (b.sizeEq c) := by
  unfold sizeEq; infer_instance

end Box

/-- Source: `detector_bbox = Box2I(); for amp in self: detector_bbox.include(box)`:
`Box2I()` is the empty box and the first `include` replaces it, so over a
non-empty list the result is the left fold of `Box.union` from the first
element. -/
def unionBoxes : List Box → Box
  | [] => ⟨0, 0, -1, -1⟩
  | b :: rest => rest.foldl Box.union b

/-- The Python-level failures that the embedded code can raise.
`incompleteSet` is `IncompleteAmplifierSetError` (`_amplifier_set.py`);
`assertionError` is a failed `assert`; `valueError` / `typeError` /
`attributeError` are the built-in exceptions raised by the code;
`outOfBounds` is the error the external `lsst.afw.image` constructors and
`assign` raise for a sub-box that is not contained in the source box
(the spec's `OutOfBounds`). -/
inductive PyErr where
  | incompleteSet
  | assertionError
  | valueError
  | typeError
  | attributeError
  | outOfBounds
deriving DecidableEq, Repr

/-- Source: `ImageSectionTransform` (`_image_section.py` lines 211-325): maps a
rectangle to another rectangle under optional axis flips.  The
`__post_init__` size validation is modelled by the separate predicate
`ImageSectionTransform.valid` (and by `mkTransformChecked` at the one place
inside the library where a transform is built from two independently supplied
boxes, `UntrimmedAmplifier.trimmed_view`). -/
structure ImageSectionTransform where
  input_bbox : Box
  output_bbox : Box
  flip_x : Bool := false
  flip_y : Bool := false
deriving DecidableEq, Repr

namespace ImageSectionTransform

/-- The `__post_init__` check: input and output box sizes agree. -/
def valid (t : ImageSectionTransform) : Prop := t.input_bbox.sizeEq t.output_bbox

instance (t : ImageSectionTransform) : Decidable t.valid := by
  unfold valid; infer_instance

/-- Source: `ImageSectionTransform.make_identity(bbox)`. -/
def make_identity (bbox : Box) : ImageSectionTransform :=
  { input_bbox := bbox, output_bbox := bbox }

/-- Source: `ImageSectionTransform.is_identity`. -/
def is_identity (t : ImageSectionTransform) : Prop :=
  ¬(t.flip_x ∨ t.flip_y) ∧ t.input_bbox = t.output_bbox

instance (t : ImageSectionTransform) : Decidable t.is_identity := by
  unfold is_identity; infer_instance

/-- Source: `ImageSectionTransform.after(other)`: composition that applies `other`
first, then `t`. -/
def after (t other : ImageSectionTransform) : ImageSectionTransform :=
  { input_bbox := other.input_bbox
    output_bbox := t.output_bbox
    flip_x := t.flip_x != other.flip_x
    flip_y := t.flip_y != other.flip_y }

/-- Source: `ImageSectionTransform.for_subimage(bbox)`: restrict the transform to a
sub-box by measuring edge offsets, swapped on a flipped axis. -/
def for_subimage (t : ImageSectionTransform) (bbox : Box) : ImageSectionTransform :=
  let lower_dist_x := bbox.x0 - t.input_bbox.x0
  let lower_dist_y := bbox.y0 - t.input_bbox.y0
  let upper_dist_x := t.input_bbox.x1 - bbox.x1
  let upper_dist_y := t.input_bbox.y1 - bbox.y1
  let ldx := if t.flip_x then upper_dist_x else lower_dist_x
  let udx := if t.flip_x then lower_dist_x else upper_dist_x
  let ldy := if t.flip_y then upper_dist_y else lower_dist_y
  let udy := if t.flip_y then lower_dist_y else upper_dist_y
  { input_bbox := bbox
    output_bbox :=
      ⟨t.output_bbox.x0 + ldx, t.output_bbox.y0 + ldy,
       t.output_bbox.x1 - udx, t.output_bbox.y1 - udy⟩
    flip_x := t.flip_x
    flip_y := t.flip_y }

end ImageSectionTransform

/-- Construction of an `ImageSectionTransform` through `__post_init__`: raises
`ValueError` when the input and output box sizes differ. -/
def mkTransformChecked (i o : Box) (fx fy : Bool) : Except PyErr ImageSectionTransform :=
  if i.sizeEq o then .ok { input_bbox := i, output_bbox := o, flip_x := fx, flip_y := fy }
  else .error .valueError

/-- Python slice normalization for one axis of positive step, as used by
`numpy` basic slicing `array[a : b]` on an axis of length `n`: a negative
index counts from the end, and both endpoints are clamped to `[0, n]`.
Returns the start index and the length of the slice. -/
def pySlice (a b : Int) (n : Nat) : Nat × Nat :=
  let lo : Int := if a < 0 then max (n + a) 0 else min a n
  let hi : Int := if b < 0 then max (n + b) 0 else min b n
  (lo.toNat, (hi - lo).toNat)

/-- The value-level content of a `numpy.ndarray` of shape
`(rows, cols)`: the payload carried by `NumPyImageSection`.  Pixel aliasing
between views is modelled separately (see the `NpAliasing` namespace used for
the view-vs-copy claim); here each section carries its pixel contents by
value, which is faithful for all bounding-box, shape-check and pixel-value
observations. -/
structure NpArray where
  rows : Nat
  cols : Nat
  pix : Nat → Nat → Int

/-- All-zero array of the same shape (`np.zeros_like`). -/
def NpArray.zerosLike (a : NpArray) : NpArray :=
  { rows := a.rows, cols := a.cols, pix := fun _ _ => 0 }

/-- The dynamic type of the `bbox_min` constructor argument of
`NumPyImageSection.__init__` (annotated `PointI`, but Python does not enforce
the annotation): every call site passes a genuine `Point2I` except
`NumPyImageSection.subimage`, which passes its whole `Box2I` argument, so a
stored `_bbox_min` is either a point or a whole box. -/
inductive NpMin where
  | pt (x y : Int)
  | box (b : Box)
deriving DecidableEq, Repr

/-- Source: `NumPyImageSection` (`_numpy.py`): an adapted array plus whatever
object was passed as `bbox_min` (a `Point2I`, or — for `subimage` results —
a whole `Box2I`). -/
structure NumPyImageSection where
  arr : NpArray
  bbox_min : NpMin

namespace NumPyImageSection

/-- Source: `NumPyImageSection.bbox`: `Box2I(self._bbox_min, ExtentI(shape[1],
shape[0]))`.  When `_bbox_min` is a genuine point this recomputes the box
from the array shape; when it is a whole `Box2I` (as every `subimage` result
stores), `lsst.geom` has no `Box2I(Box2I, Extent2I)` constructor overload and
the call raises `TypeError`. -/
def bbox (s : NumPyImageSection) : Except PyErr Box :=
  match s.bbox_min with
  | .pt x y => .ok ⟨x, y, x + s.arr.cols - 1, y + s.arr.rows - 1⟩
  | .box _ => .error .typeError

/-- Source: `NumPyImageSection.make_empty(bbox)`: the source ignores its `bbox`
argument and returns `NumPyImageSection(np.zeros_like(self._array),
self._bbox_min)` — same shape and the same stored `_bbox_min` as `self`
(point or box, propagated unchanged). -/
def make_empty (s : NumPyImageSection) (_bbox : Box) : NumPyImageSection :=
  { arr := s.arr.zerosLike, bbox_min := s.bbox_min }

/-- Source: `NumPyImageSection.subimage(bbox)`:
`start = bbox.getMin() - self._bbox_min` raises `TypeError` when `self`'s
stored `_bbox_min` is a whole box (`Point2I - Box2I` is not defined);
otherwise `stop = start + bbox.getSize()` and
`self._array[start.y : stop.y, start.x : stop.x]` (Python slicing, which
silently clamps out-of-range endpoints — there is no containment check).
The constructor is then called with the whole `bbox` as its `bbox_min`
argument, so the result stores `.box bbox`. -/
def subimage (s : NumPyImageSection) (b : Box) : Except PyErr NumPyImageSection :=
  match s.bbox_min with
  | .box _ => .error .typeError
  | .pt mx my =>
    let startX := b.x0 - mx
    let startY := b.y0 - my
    let rs := pySlice startY (startY + b.height) s.arr.rows
    let cs := pySlice startX (startX + b.width) s.arr.cols
    .ok { arr := { rows := rs.2, cols := cs.2,
                   pix := fun i j => s.arr.pix (rs.1 + i) (cs.1 + j) }
          bbox_min := .box b }

/-- Source: `NumPyImageSection.assign(other)`:
`self.subimage(other.bbox).image[...] = other.image`, evaluated after the
caller has obtained `other.bbox` (the `obbox` argument here).  The inner
`subimage` call raises `TypeError` when `self`'s stored `_bbox_min` is a
whole box; otherwise `.image` reads the sliced array and the numpy
assignment succeeds exactly when `other`'s shape broadcasts to the window's
shape (each axis equal, or `other`'s axis of length 1), raising `ValueError`
otherwise.  The write is modelled functionally on the section's by-value
pixels. -/
def assign (s : NumPyImageSection) (obbox : Box) (oarr : NpArray) :
    Except PyErr NumPyImageSection :=
  match s.bbox_min with
  | .box _ => .error .typeError
  | .pt mx my =>
    let startX := obbox.x0 - mx
    let startY := obbox.y0 - my
    let rs := pySlice startY (startY + obbox.height) s.arr.rows
    let cs := pySlice startX (startX + obbox.width) s.arr.cols
    let newArr : NpArray :=
      { rows := s.arr.rows
        cols := s.arr.cols
        pix := fun i j =>
          if rs.1 ≤ i ∧ i < rs.1 + rs.2 ∧ cs.1 ≤ j ∧ j < cs.1 + cs.2 then
            oarr.pix (if oarr.rows = 1 then 0 else i - rs.1)
                     (if oarr.cols = 1 then 0 else j - cs.1)
          else s.arr.pix i j }
    if (oarr.rows = rs.2 ∨ oarr.rows = 1) ∧ (oarr.cols = cs.2 ∨ oarr.cols = 1) then
      .ok { s with arr := newArr }
    else .error .valueError

/-- Source: `NumPyImageSection.apply_transform(transform, allow_view)` at the level
of pixel values and bounding boxes: the array is reversed along a flipped
axis and the constructor is called with `transform.output_bbox.getMin()` — a
genuine point, so the result's `_bbox_min` is a point regardless of
`self`'s.  (Whether the result is a view or a copy is modelled separately in
`NpAliasing`.) -/
def apply_transform (s : NumPyImageSection) (t : ImageSectionTransform) :
    NumPyImageSection :=
  { arr := { rows := s.arr.rows, cols := s.arr.cols,
             pix := fun i j =>
               s.arr.pix (if t.flip_y then s.arr.rows - 1 - i else i)
                         (if t.flip_x then s.arr.cols - 1 - j else j) }
    bbox_min := .pt t.output_bbox.x0 t.output_bbox.y0 }

end NumPyImageSection

/-- Modelled from the spec: the external `lsst.afw.image` image-like object
(`AfwImageLike` in `_afw.py`): a bounding box plus pixel values addressed in
absolute detector coordinates.  The external operations used by the adapter
(subimage/copy constructor, `assign`, `setXY0`, `lsst.afw.math.flipImage`)
are modelled per their documented behavior at the `AfwImageSection` call
sites. -/
structure AfwImage where
  bbox : Box
  pix : Int → Int → Int

/-- Source: `AfwImageSection` (`_afw.py`): adapts one `AfwImage`. -/
structure AfwImageSection where
  img : AfwImage

namespace AfwImageSection

/-- Source: `AfwImageSection.make_empty(bbox)`: `type(self._image)(bbox=bbox)` — a
new zero image covering exactly the given box (external constructor,
modelled from the spec). -/
def make_empty (_s : AfwImageSection) (b : Box) : AfwImageSection :=
  ⟨{ bbox := b, pix := fun _ _ => 0 }⟩

/-- Source: `AfwImageSection.subimage(bbox)`: `type(self._image)(self._image,
bbox=bbox)` — the external constructor returns a view restricted to `bbox`
and raises when `bbox` is not contained in the image's box (modelled from
the spec as `OutOfBounds`). -/
def subimage (s : AfwImageSection) (b : Box) : Except PyErr AfwImageSection :=
  if s.img.bbox.contains b then .ok ⟨{ bbox := b, pix := s.img.pix }⟩
  else .error .outOfBounds

/-- Source: `AfwImageSection.assign(other)`: `self._image.assign(other.image,
bbox=other.bbox)` — the external `assign` copies `other`'s values into that
sub-box and requires the box to be contained in `self`'s (modelled from the
spec as `OutOfBounds` on violation). -/
def assign (s : AfwImageSection) (o : AfwImage) : Except PyErr AfwImageSection :=
  if s.img.bbox.contains o.bbox then
    .ok ⟨{ bbox := s.img.bbox,
           pix := fun x y =>
             if o.bbox.containsPt x y then o.pix x y else s.img.pix x y }⟩
  else .error .outOfBounds

/-- Source: `AfwImageSection.apply_transform(transform, allow_view)` at the level of
pixel values and bounding boxes: without flips the image is (possibly
deeply) copied, with flips `lsst.afw.math.flipImage` reverses the pixel
order in place of the box (modelled from the spec), and `setXY0` then moves
the minimum corner to `transform.output_bbox.getMin()` keeping the size. -/
def apply_transform (s : AfwImageSection) (t : ImageSectionTransform) :
    AfwImageSection :=
  let b := s.img.bbox
  let nb : Box := ⟨t.output_bbox.x0, t.output_bbox.y0,
                   t.output_bbox.x0 + b.width - 1, t.output_bbox.y0 + b.height - 1⟩
  ⟨{ bbox := nb
     pix := fun x y =>
       s.img.pix (if t.flip_x then b.x1 - (x - nb.x0) else b.x0 + (x - nb.x0))
                 (if t.flip_y then b.y1 - (y - nb.y0) else b.y0 + (y - nb.y0)) }⟩

end AfwImageSection

/-- The image payload of an `ImageSection` as seen through its `image`
property: `None`, a `numpy.ndarray` (shape and values; a bare array carries
no position), or an `lsst.afw.image` object (which embeds its own box).
These are exactly the three kinds `ImageSection.with_new_image` recognizes. -/
inductive Payload where
  | none
  | npArr (a : NpArray)
  | afwImg (img : AfwImage)

/-- The closed set of `ImageSection` implementations
(`_box_only.py`, `_numpy.py`, `_afw.py`).  The Python code dispatches on the
runtime type of the payload; the spec fixes exactly these three kinds, so the
capability contract is embedded as a sum. -/
inductive ImageSection where
  | boxOnly (bbox : Box)
  | np (s : NumPyImageSection)
  | afw (s : AfwImageSection)

namespace ImageSection

/-- The `bbox` property of each implementation: a stored box for
`BoxOnlyImageSection`, the afw image's own box, and for a NumPy section the
fallible recomputation from `_bbox_min` (which raises `TypeError` when the
stored minimum is a whole box — see `NumPyImageSection.bbox`). -/
def bbox : ImageSection → Except PyErr Box
  | .boxOnly b => .ok b
  | .np s => s.bbox
  | .afw s => .ok s.img.bbox

/-- The `image` property: `None` for `BoxOnlyImageSection`, the adapted
array/afw object otherwise. -/
def image : ImageSection → Payload
  | .boxOnly _ => .none
  | .np s => .npArr s.arr
  | .afw s => .afwImg s.img

/-- Source: `self.image is None` (used by the `without_images` short-circuits). -/
def imageIsNone : ImageSection → Bool
  | .boxOnly _ => true
  | _ => false

/-- Source: `ImageSection.without_image()`: `BoxOnlyImageSection(self.bbox)` — a
box-only section for the same box, propagating the `bbox` evaluation's
failure when there is one. -/
def without_image (s : ImageSection) : Except PyErr ImageSection :=
  s.bbox.map .boxOnly

/-- Source: `copy()`: deep-copies pixel values.  At the by-value level of this model
a deep copy is the identity (`BoxOnlyImageSection.copy` returns `self` in
the source as well). -/
def copy (s : ImageSection) : ImageSection := s

/-- Source: `make_empty(bbox)` of each implementation.  Note that
`NumPyImageSection.make_empty` ignores the requested box (see
`NumPyImageSection.make_empty`). -/
def make_empty (s : ImageSection) (b : Box) : ImageSection :=
  match s with
  | .boxOnly _ => .boxOnly b
  | .np s => .np (s.make_empty b)
  | .afw s => .afw (s.make_empty b)

/-- Source: `subimage(bbox)` of each implementation:
`BoxOnlyImageSection.subimage` asserts containment (its own `bbox` is a
stored field, so the assert cannot raise `TypeError`); `NumPyImageSection`
performs unchecked (clamping) slicing but raises `TypeError` when its own
stored `_bbox_min` is a whole box; `AfwImageSection` delegates to the
external constructor which requires containment. -/
def subimage (s : ImageSection) (b : Box) : Except PyErr ImageSection :=
  match s with
  | .boxOnly bb => if bb.contains b then .ok (.boxOnly b) else .error .assertionError
  | .np s => (s.subimage b).map .np
  | .afw s => (s.subimage b).map .afw

/-- Source: `assign(other)` of each implementation.  Every implementation first
evaluates `other.bbox` (propagating its `TypeError` when `other` is a NumPy
subimage result).  `BoxOnlyImageSection.assign` then only asserts
containment.  `NumPyImageSection.assign` slices itself (raising `TypeError`
when its own `_bbox_min` is a whole box) and requires a numpy payload on the
right-hand side (assigning a `None` or foreign-object payload into a numpy
slice raises `ValueError`); `AfwImageSection.assign` requires an afw payload
(the external `assign` rejects other types). -/
def assign (s other : ImageSection) : Except PyErr ImageSection :=
  match s with
  | .boxOnly bb => do
      let ob ← other.bbox
      if bb.contains ob then .ok (.boxOnly bb) else .error .assertionError
  | .np sn => do
      let ob ← other.bbox
      match sn.bbox_min with
      | .box _ => .error .typeError
      | .pt _ _ =>
        match other.image with
        | .npArr a => (sn.assign ob a).map .np
        | _ => .error .valueError
  | .afw sa => do
      let _ ← other.bbox
      match other.image with
      | .afwImg oi => (sa.assign oi).map .afw
      | _ => .error .typeError

/-- Source: `apply_transform(transform, allow_view)` of each implementation.
`BoxOnlyImageSection.apply_transform` asserts
`transform.input_bbox == self._bbox`; the numpy and afw adapters perform no
such check.  The `allow_view` flag does not change values or boxes (aliasing
is modelled separately), so it is not a parameter here. -/
def apply_transform (s : ImageSection) (t : ImageSectionTransform) :
    Except PyErr ImageSection :=
  match s with
  | .boxOnly bb =>
      if t.input_bbox = bb then .ok (.boxOnly t.output_bbox) else .error .assertionError
  | .np s => .ok (.np (s.apply_transform t))
  | .afw s => .ok (.afw (s.apply_transform t))

/-- Source: `ImageSection.with_new_image(image)` (`_image_section.py` lines 98-141):
dispatch on the runtime kind of the new payload; `None` falls back to
`without_image`, an afw object must have the same box (`ValueError`
otherwise), an array must match the box's height and width (`ValueError`
otherwise).  The `TypeError` branch for unrecognized kinds is unreachable in
this closed model. -/
def with_new_image (s : ImageSection) (p : Payload) : Except PyErr ImageSection :=
  match p with
  | .none => s.without_image
  | .afwImg img => do
      let b ← s.bbox
      if b = img.bbox then .ok (.afw ⟨img⟩) else .error .valueError
  | .npArr a => do
      let b ← s.bbox
      if b.height = a.rows ∧ b.width = a.cols then
        .ok (.np { arr := a, bbox_min := .pt b.x0 b.y0 })
      else .error .valueError

end ImageSection

/-- Source: `TrimmedAmplifier` (`_trimmed_amplifier.py`): data section only, plus the
two transforms and the three stored boundary-side flags. -/
structure TrimmedAmplifier where
  data : ImageSection
  amplifier_id : Int
  readout_transform : ImageSectionTransform
  horizontal_overscan_is_at_min : Bool
  vertical_overscan_is_at_min : Bool
  horizontal_prescan_is_at_min : Bool
  physical_transform : ImageSectionTransform

/-- Source: `TrimmedAmplifier.__init__`: asserts
`readout_transform.input_bbox == data.bbox` and
`physical_transform.input_bbox == data.bbox`.  Evaluating `data.bbox` can
itself raise `TypeError` (when `data` is a NumPy subimage result), before
any `AssertionError`. -/
def TrimmedAmplifier.mkChecked (data : ImageSection) (amplifier_id : Int)
    (readout_transform : ImageSectionTransform)
    (hov vov hpre : Bool)
    (physical_transform : ImageSectionTransform) : Except PyErr TrimmedAmplifier := do
  let b ← data.bbox
  if readout_transform.input_bbox = b ∧ physical_transform.input_bbox = b then
    .ok ⟨data, amplifier_id, readout_transform, hov, vov, hpre, physical_transform⟩
  else .error .assertionError

namespace TrimmedAmplifier

/-- Source: `TrimmedAmplifier.copy()`: deep-copy the data section and re-run the
constructor with the same metadata. -/
def copy (a : TrimmedAmplifier) : Except PyErr TrimmedAmplifier :=
  mkChecked a.data.copy a.amplifier_id a.readout_transform
    a.horizontal_overscan_is_at_min a.vertical_overscan_is_at_min
    a.horizontal_prescan_is_at_min a.physical_transform

/-- Source: `TrimmedAmplifier.without_images()`: return `self` when the data section
has no image, otherwise rebuild with a box-only data section. -/
def without_images (a : TrimmedAmplifier) : Except PyErr TrimmedAmplifier :=
  if a.data.imageIsNone then .ok a
  else do
    let nd ← a.data.without_image
    mkChecked nd a.amplifier_id a.readout_transform
      a.horizontal_overscan_is_at_min a.vertical_overscan_is_at_min
      a.horizontal_prescan_is_at_min a.physical_transform

/-- Source: `TrimmedAmplifier.trimmed_view`: returns `self`. -/
def trimmed_view (a : TrimmedAmplifier) : TrimmedAmplifier := a

/-- Source: `TrimmedAmplifier.into_readout_coordinates(allow_view)`
(`_trimmed_amplifier.py` lines 128-143).  The source builds the new readout
transform as `ImageSectionTransform(new_data.bbox)` — a call with only the
`input_bbox` argument.  `ImageSectionTransform` is a dataclass whose
`output_bbox` field has no default, so this call raises `TypeError`
(missing required positional argument) on every invocation, before the new
amplifier is constructed. -/
def into_readout_coordinates (_a : TrimmedAmplifier) (_allow_view : Bool) :
    Except PyErr TrimmedAmplifier :=
  .error .typeError

/-- Source: `TrimmedAmplifier.horizontal_overscan_boundary`: reads
`self._data.bbox` (propagating its possible `TypeError`). -/
def horizontal_overscan_boundary (a : TrimmedAmplifier) : Except PyErr Int := do
  let b ← a.data.bbox
  .ok (if a.horizontal_overscan_is_at_min then b.x0 else b.x1)

/-- Source: `TrimmedAmplifier.vertical_overscan_boundary`. -/
def vertical_overscan_boundary (a : TrimmedAmplifier) : Except PyErr Int := do
  let b ← a.data.bbox
  .ok (if a.vertical_overscan_is_at_min then b.y0 else b.y1)

/-- Source: `TrimmedAmplifier.horizontal_prescan_boundary`. -/
def horizontal_prescan_boundary (a : TrimmedAmplifier) : Except PyErr Int := do
  let b ← a.data.bbox
  .ok (if a.horizontal_prescan_is_at_min then b.x0 else b.x1)

/-- Source: `TrimmedAmplifier.with_new_data_image(image)`. -/
def with_new_data_image (a : TrimmedAmplifier) (p : Payload) :
    Except PyErr TrimmedAmplifier := do
  let new_data ← a.data.with_new_image p
  mkChecked new_data a.amplifier_id a.readout_transform
    a.horizontal_overscan_is_at_min a.vertical_overscan_is_at_min
    a.horizontal_prescan_is_at_min a.physical_transform

/-- Source: `TrimmedAmplifier.into_physical_coordinates(allow_view)`
(`_trimmed_amplifier.py` lines 203-236). -/
def into_physical_coordinates (a : TrimmedAmplifier) (_allow_view : Bool) :
    Except PyErr TrimmedAmplifier := do
  let new_data ← a.data.apply_transform a.physical_transform
  let nb ← new_data.bbox
  mkChecked new_data a.amplifier_id
    (a.readout_transform.after a.physical_transform)
    (a.horizontal_overscan_is_at_min != a.physical_transform.flip_x)
    (a.vertical_overscan_is_at_min != a.physical_transform.flip_y)
    (a.horizontal_prescan_is_at_min != a.physical_transform.flip_x)
    (ImageSectionTransform.make_identity nb)

end TrimmedAmplifier

/-- Source: `UntrimmedAmplifier` (`_untrimmed_amplifier.py`): full section with data,
overscan and prescan sub-boxes, plus the readout and raw-detector
transforms. -/
structure UntrimmedAmplifier where
  full : ImageSection
  amplifier_id : Int
  readout_transform : ImageSectionTransform
  data_bbox : Box
  data_physical_bbox : Box
  horizontal_overscan_bbox : Box
  vertical_overscan_bbox : Box
  horizontal_prescan_bbox : Box
  raw_detector_transform : ImageSectionTransform

/-- Source: `UntrimmedAmplifier.__init__`: asserts
`readout_transform.input_bbox == full.bbox`,
`raw_detector_transform.input_bbox == full.bbox` and
`full.bbox.contains(data_bbox)`.  Evaluating `full.bbox` can itself raise
`TypeError` (when `full` is a NumPy subimage result), before any
`AssertionError`. -/
def UntrimmedAmplifier.mkChecked (full : ImageSection) (amplifier_id : Int)
    (readout_transform : ImageSectionTransform)
    (data_bbox data_physical_bbox hov_bbox vov_bbox hpre_bbox : Box)
    (raw_detector_transform : ImageSectionTransform) :
    Except PyErr UntrimmedAmplifier := do
  let b ← full.bbox
  if readout_transform.input_bbox = b ∧
      raw_detector_transform.input_bbox = b ∧
      b.contains data_bbox then
    .ok ⟨full, amplifier_id, readout_transform, data_bbox, data_physical_bbox,
         hov_bbox, vov_bbox, hpre_bbox, raw_detector_transform⟩
  else .error .assertionError

namespace UntrimmedAmplifier

/-- Source: `UntrimmedAmplifier.data`: `self._full.subimage(self._data_bbox)`. -/
def data (a : UntrimmedAmplifier) : Except PyErr ImageSection :=
  a.full.subimage a.data_bbox

/-- Source: `UntrimmedAmplifier.copy()`. -/
def copy (a : UntrimmedAmplifier) : Except PyErr UntrimmedAmplifier :=
  mkChecked a.full.copy a.amplifier_id a.readout_transform a.data_bbox
    a.data_physical_bbox a.horizontal_overscan_bbox a.vertical_overscan_bbox
    a.horizontal_prescan_bbox a.raw_detector_transform

/-- Source: `UntrimmedAmplifier.without_images()`: return `self` when the full
section has no image. -/
def without_images (a : UntrimmedAmplifier) : Except PyErr UntrimmedAmplifier :=
  if a.full.imageIsNone then .ok a
  else do
    let nf ← a.full.without_image
    mkChecked nf a.amplifier_id a.readout_transform a.data_bbox
      a.data_physical_bbox a.horizontal_overscan_bbox a.vertical_overscan_bbox
      a.horizontal_prescan_bbox a.raw_detector_transform

/-- Source: `UntrimmedAmplifier.horizontal_overscan_boundary`: whichever edge of the
data box is adjacent to the horizontal overscan box; asserts that the
overscan box lies entirely on one side. -/
def horizontal_overscan_boundary (a : UntrimmedAmplifier) : Except PyErr Int :=
  if a.horizontal_overscan_bbox.x1 < a.data_bbox.x0 then .ok a.data_bbox.x0
  else if a.horizontal_overscan_bbox.x0 > a.data_bbox.x1 then .ok a.data_bbox.x1
  else .error .assertionError

/-- Source: `UntrimmedAmplifier.vertical_overscan_boundary`. -/
def vertical_overscan_boundary (a : UntrimmedAmplifier) : Except PyErr Int :=
  if a.vertical_overscan_bbox.y1 < a.data_bbox.y0 then .ok a.data_bbox.y0
  else if a.vertical_overscan_bbox.y0 > a.data_bbox.y1 then .ok a.data_bbox.y1
  else .error .assertionError

/-- Source: `UntrimmedAmplifier.horizontal_prescan_boundary`. -/
def horizontal_prescan_boundary (a : UntrimmedAmplifier) : Except PyErr Int :=
  if a.horizontal_prescan_bbox.x1 < a.data_bbox.x0 then .ok a.data_bbox.x0
  else if a.horizontal_prescan_bbox.x0 > a.data_bbox.x1 then .ok a.data_bbox.x1
  else .error .assertionError

/-- Source: `UntrimmedAmplifier.trimmed_view` (`_untrimmed_amplifier.py` lines
135-153): wraps the data view in a `TrimmedAmplifier` with the readout
transform restricted by `for_subimage` and a physical transform built
directly from `data_bbox`/`data_physical_bbox` with the raw-detector flips
(its dataclass `__post_init__` size check is `mkTransformChecked`). -/
def trimmed_view (a : UntrimmedAmplifier) : Except PyErr TrimmedAmplifier := do
  let d ← a.data
  let hb ← a.horizontal_overscan_boundary
  let vb ← a.vertical_overscan_boundary
  let pb ← a.horizontal_prescan_boundary
  let physical ← mkTransformChecked a.data_bbox a.data_physical_bbox
    a.raw_detector_transform.flip_x a.raw_detector_transform.flip_y
  TrimmedAmplifier.mkChecked d a.amplifier_id
    (a.readout_transform.for_subimage a.data_bbox)
    (hb = a.data_bbox.x0) (vb = a.data_bbox.y0) (pb = a.data_bbox.x0)
    physical

/-- Source: `UntrimmedAmplifier.into_readout_coordinates(allow_view)`
(`_untrimmed_amplifier.py` lines 160-179). -/
def into_readout_coordinates (a : UntrimmedAmplifier) (_allow_view : Bool) :
    Except PyErr UntrimmedAmplifier := do
  let new_full ← a.full.apply_transform a.readout_transform
  let nb ← new_full.bbox
  mkChecked new_full a.amplifier_id
    (ImageSectionTransform.make_identity nb)
    (a.readout_transform.for_subimage a.data_bbox).output_bbox
    a.data_physical_bbox
    (a.readout_transform.for_subimage a.horizontal_overscan_bbox).output_bbox
    (a.readout_transform.for_subimage a.vertical_overscan_bbox).output_bbox
    (a.readout_transform.for_subimage a.horizontal_prescan_bbox).output_bbox
    (a.raw_detector_transform.after a.readout_transform)

/-- Source: `UntrimmedAmplifier.with_new_full_image(image)`. -/
def with_new_full_image (a : UntrimmedAmplifier) (p : Payload) :
    Except PyErr UntrimmedAmplifier := do
  let new_full ← a.full.with_new_image p
  mkChecked new_full a.amplifier_id a.readout_transform a.data_bbox
    a.data_physical_bbox a.horizontal_overscan_bbox a.vertical_overscan_bbox
    a.horizontal_prescan_bbox a.raw_detector_transform

/-- Source: `UntrimmedAmplifier.into_raw_detector_coordinates(allow_view)`
(`_untrimmed_amplifier.py` lines 285-320). -/
def into_raw_detector_coordinates (a : UntrimmedAmplifier) (_allow_view : Bool) :
    Except PyErr UntrimmedAmplifier := do
  let new_full ← a.full.apply_transform a.raw_detector_transform
  let nb ← new_full.bbox
  mkChecked new_full a.amplifier_id
    (a.readout_transform.after a.raw_detector_transform)
    (a.raw_detector_transform.for_subimage a.data_bbox).output_bbox
    a.data_physical_bbox
    (a.raw_detector_transform.for_subimage a.horizontal_overscan_bbox).output_bbox
    (a.raw_detector_transform.for_subimage a.vertical_overscan_bbox).output_bbox
    (a.raw_detector_transform.for_subimage a.horizontal_prescan_bbox).output_bbox
    (ImageSectionTransform.make_identity nb)

end UntrimmedAmplifier

/-- Source: `UnassembledTrimmedAmplifierSet` (`_trimmed_amplifier_sets.py`): the
underlying `{amplifier_id: amp}` mapping is modelled as the insertion-order
list of members (amplifier ids are unique within a detector, so the dict
comprehension preserves the construction order and drops nothing).  The
opaque `observation_info` passthrough is omitted. -/
structure UnassembledTrimmedAmplifierSet where
  amps : List TrimmedAmplifier
  is_complete : Bool

/-- Source: `UnassembledUntrimmedAmplifierSet` (`_untrimmed_amplifier_sets.py`),
modelled like `UnassembledTrimmedAmplifierSet`. -/
structure UnassembledUntrimmedAmplifierSet where
  amps : List UntrimmedAmplifier
  is_complete : Bool

/-- Source: `AssembledTrimmedAmplifierSet`: one detector canvas plus the members
re-wrapped as views into it (`is_complete` is `True` by construction). -/
structure AssembledTrimmedAmplifierSet where
  detector : ImageSection
  amps : List TrimmedAmplifier

/-- Source: `AssembledUntrimmedAmplifierSet`: one detector canvas plus the members
re-wrapped as views into it (`is_complete` is `True` by construction). -/
structure AssembledUntrimmedAmplifierSet where
  detector : ImageSection
  amps : List UntrimmedAmplifier

/-- Source: `AssembledTrimmedAmplifierSet.__init__(detector, amplifiers)`
(`_trimmed_amplifier_sets.py` lines 199-211): each member is put into
physical coordinates and re-wrapped around
`detector.subimage(amp.data.bbox).image`. -/
def AssembledTrimmedAmplifierSet.mkFromDetector (detector : ImageSection)
    (amplifiers : List TrimmedAmplifier) :
    Except PyErr AssembledTrimmedAmplifierSet := do
  let new_amps ← amplifiers.mapM (fun amp => do
    let pa ← amp.into_physical_coordinates true
    let db ← pa.data.bbox
    let sub ← detector.subimage db
    pa.with_new_data_image sub.image)
  .ok ⟨detector, new_amps⟩

/-- Source: `AssembledUntrimmedAmplifierSet.__init__(detector, amplifiers)`
(`_untrimmed_amplifier_sets.py` lines 246-261): each member is put into raw
detector coordinates and re-wrapped around
`detector.subimage(amp.full.bbox).image`. -/
def AssembledUntrimmedAmplifierSet.mkFromDetector (detector : ImageSection)
    (amplifiers : List UntrimmedAmplifier) :
    Except PyErr AssembledUntrimmedAmplifierSet := do
  let new_amps ← amplifiers.mapM (fun amp => do
    let ra ← amp.into_raw_detector_coordinates true
    let fb ← ra.full.bbox
    let sub ← detector.subimage fb
    ra.with_new_full_image sub.image)
  .ok ⟨detector, new_amps⟩

/-- The body of the assembly loop of
`UnassembledTrimmedAmplifierSet.assemble_into_trimmed`: transform one member
into physical coordinates with `allow_view=True`, `assign` its data into the
accumulated canvas, and append it to the transformed-member list. -/
def trimmedAssemblyStep (st : ImageSection × List TrimmedAmplifier)
    (amp : TrimmedAmplifier) :
    Except PyErr (ImageSection × List TrimmedAmplifier) := do
  let new_amp ← amp.into_physical_coordinates true
  let det ← st.1.assign new_amp.data
  pure (det, st.2 ++ [new_amp])

/-- Source: `UnassembledTrimmedAmplifierSet.assemble_into_trimmed(allow_view)`
(`_trimmed_amplifier_sets.py` lines 156-170): fail with
`IncompleteAmplifierSetError` unless the set is complete and non-empty;
compute the union of the members' `physical_transform.output_bbox`; allocate
the canvas with `make_empty` on the data section of the amplifier left bound
by the first loop (the last member); run `trimmedAssemblyStep` over the
members; wrap up via the `AssembledTrimmedAmplifierSet` constructor. -/
def UnassembledTrimmedAmplifierSet.assemble_into_trimmed
    (s : UnassembledTrimmedAmplifierSet) :
    Except PyErr AssembledTrimmedAmplifierSet :=
  if ¬s.is_complete ∨ s.amps.isEmpty then .error .incompleteSet
  else
    match s.amps with
    | [] => .error .incompleteSet
    | a0 :: rest => do
      let detector_bbox := unionBoxes ((a0 :: rest).map
        (fun a => a.physical_transform.output_bbox))
      let lastAmp := (a0 :: rest).getLastD a0
      let detector0 := lastAmp.data.make_empty detector_bbox
      let (detector, new_amplifiers) ←
        (a0 :: rest).foldlM trimmedAssemblyStep (detector0, [])
      AssembledTrimmedAmplifierSet.mkFromDetector detector new_amplifiers

/-- The body of the assembly loop of
`UnassembledUntrimmedAmplifierSet.assemble_into_untrimmed`: transform one
member into raw detector coordinates with `allow_view=True`, `assign` its
data region into the accumulated canvas, and append it to the
transformed-member list. -/
def untrimmedAssemblyStep (st : ImageSection × List UntrimmedAmplifier)
    (amp : UntrimmedAmplifier) :
    Except PyErr (ImageSection × List UntrimmedAmplifier) := do
  let new_amp ← amp.into_raw_detector_coordinates true
  let nd ← new_amp.data
  let det ← st.1.assign nd
  pure (det, st.2 ++ [new_amp])

/-- Source: `UnassembledUntrimmedAmplifierSet.assemble_into_untrimmed(allow_view)`
(`_untrimmed_amplifier_sets.py` lines 196-214): same shape as the trimmed
assembly, using `raw_detector_transform.output_bbox` and
`into_raw_detector_coordinates`. -/
def UnassembledUntrimmedAmplifierSet.assemble_into_untrimmed
    (s : UnassembledUntrimmedAmplifierSet) :
    Except PyErr AssembledUntrimmedAmplifierSet :=
  if ¬s.is_complete ∨ s.amps.isEmpty then .error .incompleteSet
  else
    match s.amps with
    | [] => .error .incompleteSet
    | a0 :: rest => do
      let detector_bbox := unionBoxes ((a0 :: rest).map
        (fun a => a.raw_detector_transform.output_bbox))
      let lastAmp := (a0 :: rest).getLastD a0
      let lastData ← lastAmp.data
      let detector0 := lastData.make_empty detector_bbox
      let (detector, new_amplifiers) ←
        (a0 :: rest).foldlM untrimmedAssemblyStep (detector0, [])
      AssembledUntrimmedAmplifierSet.mkFromDetector detector new_amplifiers

/-- Source: `UntrimmedAmplifierSet.trimmed_view` (`_untrimmed_amplifier_sets.py`
lines 88-95): build an `UnassembledTrimmedAmplifierSet` from the members'
`trimmed_view`s (evaluated eagerly by the dict comprehension in the set
constructor), propagating `is_complete`. -/
def UnassembledUntrimmedAmplifierSet.trimmed_view
    (s : UnassembledUntrimmedAmplifierSet) :
    Except PyErr UnassembledTrimmedAmplifierSet := do
  let tv ← s.amps.mapM (fun a => a.trimmed_view)
  .ok ⟨tv, s.is_complete⟩

/-- Source: `UntrimmedAmplifierSet.assemble_into_trimmed(allow_view)`
(`_untrimmed_amplifier_sets.py` lines 97-99):
`self.trimmed_view.assemble_into_trimmed(allow_view)`. -/
def UnassembledUntrimmedAmplifierSet.assemble_into_trimmed
    (s : UnassembledUntrimmedAmplifierSet) :
    Except PyErr AssembledTrimmedAmplifierSet := do
  let tv ← s.trimmed_view
  tv.assemble_into_trimmed

/-- Source: `AssembledTrimmedAmplifierSet.with_new_detector_image(detector)`
(`_trimmed_amplifier_sets.py` lines 291-323): when the new payload is
`None` the source calls `self.without_image()` — a method that no
amplifier-set class defines (the set-level method is named
`without_images`), so Python raises `AttributeError`; otherwise the set is
rebuilt from `self._detector.with_new_image(detector)` and the current
members. -/
def AssembledTrimmedAmplifierSet.with_new_detector_image
    (s : AssembledTrimmedAmplifierSet) (p : Payload) :
    Except PyErr AssembledTrimmedAmplifierSet :=
  match p with
  | .none => .error .attributeError
  | _ => do
    let nd ← s.detector.with_new_image p
    AssembledTrimmedAmplifierSet.mkFromDetector nd s.amps

/-- Source: `AssembledUntrimmedAmplifierSet.with_new_detector_image(detector)`
(`_untrimmed_amplifier_sets.py` lines 339-373): the `None` branch likewise
calls the undefined `self.without_image()` and raises `AttributeError`. -/
def AssembledUntrimmedAmplifierSet.with_new_detector_image
    (s : AssembledUntrimmedAmplifierSet) (p : Payload) :
    Except PyErr AssembledUntrimmedAmplifierSet :=
  match p with
  | .none => .error .attributeError
  | _ => do
    let nd ← s.detector.with_new_image p
    AssembledUntrimmedAmplifierSet.mkFromDetector nd s.amps

/-! Aliasing model for `apply_transform`.  The by-value model above cannot
express storage sharing, so the two pixel-bearing backends'
`apply_transform` are additionally embedded with explicit backing buffers:
a heap of buffers, and views described by a base-buffer id, an offset and
per-axis direction flags (numpy strides may be negative; reversing an axis
of a view toggles its direction flag without touching the buffer).
-/

namespace NpAliasing

/-- A backing `numpy` buffer: the memory a view reads and writes. -/
structure NpBuf where
  rows : Nat
  cols : Nat
  pix : Nat → Nat → Int

/-- The collection of live buffers; a view's `base` indexes into it. -/
abbrev NpHeap := List NpBuf

/-- A `numpy.ndarray` as a strided view: base buffer, offset of the view's
origin, shape, and whether each axis runs backwards (negative stride). -/
structure NpView where
  base : Nat
  r0 : Nat
  c0 : Nat
  nrows : Nat
  ncols : Nat
  negR : Bool
  negC : Bool

/-- Buffer row addressed by view row `i`. -/
def NpView.bufRow (v : NpView) (i : Nat) : Nat :=
  v.r0 + (if v.negR then v.nrows - 1 - i else i)

/-- Buffer column addressed by view column `j`. -/
def NpView.bufCol (v : NpView) (j : Nat) : Nat :=
  v.c0 + (if v.negC then v.ncols - 1 - j else j)

/-- Read the view's element `(i, j)` out of the heap. -/
def readV (h : NpHeap) (v : NpView) (i j : Nat) : Int :=
  match h.get? v.base with
  | some b => b.pix (v.bufRow i) (v.bufCol j)
  | none => 0

/-- Write `x` at the view's element `(i, j)`: mutates the backing buffer, so
the effect is visible through every view with the same `base`. -/
def writeV (h : NpHeap) (v : NpView) (i j : Nat) (x : Int) : NpHeap :=
  match h.get? v.base with
  | some b =>
      h.set v.base
        { b with pix := fun r c =>
            if r = v.bufRow i ∧ c = v.bufCol j then x else b.pix r c }
  | none => h

/-- Source: `NumPyImageSection` in the aliasing model: a strided view plus the
bounding-box minimum. -/
structure NpSec where
  v : NpView
  minX : Int
  minY : Int

/-- Source: `NumPyImageSection.apply_transform(transform, allow_view)`
(`_numpy.py` lines 85-90) in the aliasing model:
`array = self._array[:: -1 if flip_y else 1, :: -1 if flip_x else 1]` is a
strided view (toggling the axis directions, same base buffer);
`if not allow_view: array = array.copy()` materializes a fresh buffer; the
result is positioned at `transform.output_bbox.getMin()`. -/
def apply_transform (h : NpHeap) (s : NpSec) (t : ImageSectionTransform)
    (allow_view : Bool) : NpHeap × NpSec :=
  let v1 : NpView := { s.v with negR := s.v.negR != t.flip_y,
                                negC := s.v.negC != t.flip_x }
  if allow_view then
    (h, { v := v1, minX := t.output_bbox.x0, minY := t.output_bbox.y0 })
  else
    let fresh : NpBuf :=
      { rows := v1.nrows, cols := v1.ncols, pix := fun i j => readV h v1 i j }
    (h ++ [fresh],
     { v := { base := h.length, r0 := 0, c0 := 0, nrows := v1.nrows,
              ncols := v1.ncols, negR := false, negC := false }
       minX := t.output_bbox.x0, minY := t.output_bbox.y0 })

end NpAliasing

namespace AfwAliasing

/-- An `lsst.afw.image` object in the aliasing model: a base-storage id plus
its bounding box (pixel values are irrelevant to the sharing question). -/
structure AfwImg where
  base : Nat
  bbox : Box

/-- Source: `AfwImageSection.apply_transform(transform, allow_view)`
(`_afw.py` lines 109-118) in the aliasing model.  Without flips,
`type(self._image)(self._image, deep=not allow_view)` shares storage when
`deep=False` and allocates otherwise; with a flip, `lsst.afw.math.flipImage`
always returns a freshly allocated image (modelled from the spec: afw images
cannot use negative strides, so a flip cannot be a view).  `next` is the
next unused storage id; `setXY0` moves the box to
`transform.output_bbox.getMin()`. -/
def apply_transform (next : Nat) (img : AfwImg) (t : ImageSectionTransform)
    (allow_view : Bool) : Nat × AfwImg :=
  let nb : Box := ⟨t.output_bbox.x0, t.output_bbox.y0,
                   t.output_bbox.x0 + img.bbox.width - 1,
                   t.output_bbox.y0 + img.bbox.height - 1⟩
  if ¬(t.flip_x ∨ t.flip_y) then
    if allow_view then (next, { base := img.base, bbox := nb })
    else (next + 1, { base := next, bbox := nb })
  else (next + 1, { base := next, bbox := nb })

end AfwAliasing

/-!  Theorems about the embedded code, one per claim of the specification. -/

/-- C7: for every `ImageSectionTransform` `t` and every box `s` contained in
`t.input_bbox`, `t.for_subimage(s)` has `input_bbox` equal to `s`, and
`t.for_subimage(t.input_bbox)` equals `t` itself (same input box, output
box, and flip flags). -/
theorem for_subimage_input_bbox_and_roundtrip
    (t : ImageSectionTransform) (s : Box) (h : t.input_bbox.contains s) :
    (t.for_subimage s).input_bbox = s ∧ t.for_subimage t.input_bbox = t := by
  refine ⟨rfl, ?_⟩
  cases t with
  | mk i o fx fy =>
    cases o with
    | mk ox0 oy0 ox1 oy1 =>
      simp [ImageSectionTransform.for_subimage]

/-- C7 witness: the theorem applied to a concrete flipped transform and a
concrete sub-box. -/
theorem for_subimage_input_bbox_and_roundtrip_witness :
    (Box.mk 0 0 4 4).contains ⟨1, 1, 2, 3⟩ ∧
    ((ImageSectionTransform.mk ⟨0, 0, 4, 4⟩ ⟨10, 0, 14, 4⟩ true false).for_subimage
        ⟨1, 1, 2, 3⟩).input_bbox = ⟨1, 1, 2, 3⟩ ∧
    (ImageSectionTransform.mk ⟨0, 0, 4, 4⟩ ⟨10, 0, 14, 4⟩ true false).for_subimage
        ⟨0, 0, 4, 4⟩ = ⟨⟨0, 0, 4, 4⟩, ⟨10, 0, 14, 4⟩, true, false⟩ := by
  have h := for_subimage_input_bbox_and_roundtrip
    ⟨⟨0, 0, 4, 4⟩, ⟨10, 0, 14, 4⟩, true, false⟩ ⟨1, 1, 2, 3⟩ (by decide)
  exact ⟨by decide, h.1, h.2⟩

/-- C3: `TrimmedAmplifier.into_readout_coordinates` never returns normally —
the source constructs `ImageSectionTransform(new_data.bbox)` with only the
`input_bbox` argument, so Python raises `TypeError` on every call (the
docstring instead promises a result with an identity `readout_transform`). -/
theorem trimmed_into_readout_coordinates_always_type_error
    (a : TrimmedAmplifier) (allow_view : Bool) :
    a.into_readout_coordinates allow_view = .error .typeError := rfl

/-- C10: on both assembled set variants, `with_new_detector_image(None)`
always fails: the `None` branch calls `self.without_image()`, a method no
amplifier-set class defines (the set-level method is `without_images`), so
Python raises `AttributeError` instead of returning an image-less set. -/
theorem with_new_detector_image_none_attribute_error
    (st : AssembledTrimmedAmplifierSet) (su : AssembledUntrimmedAmplifierSet) :
    st.with_new_detector_image .none = .error .attributeError ∧
    su.with_new_detector_image .none = .error .attributeError :=
  ⟨rfl, rfl⟩

/-- Whether a fallible run succeeded. -/
def exceptIsOk {α : Type} : Except PyErr α → Bool
  | .ok _ => true
  | .error _ => false

/-- The bounding box a caller observes on the section returned by a
`subimage` call: evaluate the call, then the result's `bbox` property. -/
def bboxAfterSubimage (s : ImageSection) (b : Box) : Except PyErr Box := do
  let r ← s.subimage b
  r.bbox

/-- A 10-wide, 20-tall `NumPyImageSection` at origin `(0, 0)`. -/
def npSecWide : NumPyImageSection := ⟨⟨20, 10, fun _ _ => 1⟩, .pt 0 0⟩

/-- C8: `NumPyImageSection.subimage` does not raise the out-of-bounds
failure the claim requires.  For the box `(0,0)-(19,19)`, which is not
contained in the section's `(0,0)-(9,19)`, the call itself succeeds (Python
slicing silently clamps, with no containment check); and the returned
section does not satisfy the inherited contract `subset.bbox == bbox`
either — reading its `bbox` raises `TypeError`, because `subimage` passed
the whole `Box2I` as the new section's `bbox_min` and `lsst.geom` has no
`Box2I(Box2I, Extent2I)` overload.  The same `TypeError` occurs even for a
fully contained box such as `(2,2)-(5,5)`, so no NumPy `subimage` result
satisfies the contract.  (`BoxOnlyImageSection.subimage`'s assert does fail
on the non-contained box, as the claim expects.) -/
theorem numpy_subimage_out_of_bounds_not_checked :
    (ImageSection.np npSecWide).bbox = .ok ⟨0, 0, 9, 19⟩ ∧
    ¬(Box.mk 0 0 9 19).contains ⟨0, 0, 19, 19⟩ ∧
    exceptIsOk ((ImageSection.np npSecWide).subimage ⟨0, 0, 19, 19⟩) = true ∧
    bboxAfterSubimage (.np npSecWide) ⟨0, 0, 19, 19⟩ = .error .typeError ∧
    bboxAfterSubimage (.np npSecWide) ⟨2, 2, 5, 5⟩ = .error .typeError ∧
    (ImageSection.boxOnly ⟨0, 0, 9, 19⟩).subimage ⟨0, 0, 19, 19⟩ =
      .error .assertionError := by
  refine ⟨rfl, by decide, rfl, rfl, rfl, rfl⟩

/-- A one-row, two-column buffer holding the values `5, 7`. -/
def aliasBuf : NpAliasing.NpBuf := ⟨1, 2, fun _ j => if j = 0 then 5 else 7⟩

/-- A full view of `aliasBuf` at the origin. -/
def aliasSec : NpAliasing.NpSec := ⟨⟨0, 0, 0, 1, 2, false, false⟩, 0, 0⟩

/-- A pure x-flip transform on the box `(0,0)-(1,0)`. -/
def aliasFlip : ImageSectionTransform := ⟨⟨0, 0, 1, 0⟩, ⟨0, 0, 1, 0⟩, true, false⟩

/-- C5 counterexample: for the NumPy backend, `apply_transform` with
`flip_x=true` and `allow_view=true` returns a negative-stride view that
DOES share storage with the source: no new buffer is allocated, and writing
`42` through element `(0, 0)` of the result changes the value the source
reads at its element `(0, 1)` from `7` to `42`.  This refutes the claim
that a flipped `apply_transform` never shares payload storage, even when
`allow_view=true`. -/
theorem numpy_flip_apply_transform_shares_storage :
    (NpAliasing.apply_transform [aliasBuf] aliasSec aliasFlip true).1 = [aliasBuf] ∧
    (NpAliasing.apply_transform [aliasBuf] aliasSec aliasFlip true).2.v.base =
      aliasSec.v.base ∧
    NpAliasing.readV [aliasBuf] aliasSec.v 0 1 = 7 ∧
    NpAliasing.readV
      (NpAliasing.writeV [aliasBuf]
        (NpAliasing.apply_transform [aliasBuf] aliasSec aliasFlip true).2.v 0 0 42)
      aliasSec.v 0 1 = 42 := by
  refine ⟨rfl, rfl, by decide, by decide⟩

/-- C5 as amended: `apply_transform` with no flips and `allow_view=true`
shares storage with the source on both pixel-bearing backends; with a flip
requested, the afw backend always returns a freshly allocated image
(regardless of `allow_view`), while the NumPy backend still shares storage
whenever `allow_view=true` (a reversed view) and allocates a fresh buffer
only when `allow_view=false`. -/
theorem apply_transform_view_copy_contract
    (h : NpAliasing.NpHeap) (s : NpAliasing.NpSec) (t : ImageSectionTransform)
    (n : Nat) (img : AfwAliasing.AfwImg) (av : Bool) :
    ((NpAliasing.apply_transform h s t true).1 = h ∧
      (NpAliasing.apply_transform h s t true).2.v.base = s.v.base) ∧
    (s.v.base < h.length →
      (NpAliasing.apply_transform h s t false).2.v.base ≠ s.v.base) ∧
    ((t.flip_x ∨ t.flip_y) → img.base < n →
      (AfwAliasing.apply_transform n img t av).2.base ≠ img.base) ∧
    (¬(t.flip_x ∨ t.flip_y) →
      (AfwAliasing.apply_transform n img t true).2.base = img.base) := by
  refine ⟨⟨rfl, rfl⟩, ?_, ?_, ?_⟩
  · intro hlt
    show h.length ≠ s.v.base
    exact (Nat.ne_of_lt hlt).symm
  · intro hf hlt
    unfold AfwAliasing.apply_transform
    rw [if_neg (not_not_intro hf)]
    exact (Nat.ne_of_lt hlt).symm
  · intro hnf
    unfold AfwAliasing.apply_transform
    rw [if_pos hnf]
    rfl

/-- C5 witness: the amended contract applied at a concrete heap, section,
flip transform and afw image. -/
theorem apply_transform_view_copy_contract_witness :
    aliasSec.v.base < ([aliasBuf] : NpAliasing.NpHeap).length ∧
    (aliasFlip.flip_x ∨ aliasFlip.flip_y) ∧ (0 : Nat) < 3 ∧
    (NpAliasing.apply_transform [aliasBuf] aliasSec aliasFlip false).2.v.base ≠
      aliasSec.v.base ∧
    (AfwAliasing.apply_transform 3 ⟨0, ⟨0, 0, 1, 0⟩⟩ aliasFlip true).2.base ≠ 0 := by
  have h := apply_transform_view_copy_contract [aliasBuf] aliasSec aliasFlip
    3 ⟨0, ⟨0, 0, 1, 0⟩⟩ true
  exact ⟨by decide, by decide, by decide,
    h.2.1 (by decide), h.2.2.1 (by decide) (by decide)⟩

/-- The detector bounding box of an assembled untrimmed set returned by a
fallible run. -/
def untrimmedDetectorBboxOf : Except PyErr AssembledUntrimmedAmplifierSet → Option Box
  | .ok r =>
    match r.detector.bbox with
    | .ok b => some b
    | .error _ => none
  | .error _ => none

/-- The detector bounding box of an assembled trimmed set returned by a
fallible run. -/
def trimmedDetectorBboxOf : Except PyErr AssembledTrimmedAmplifierSet → Option Box
  | .ok r =>
    match r.detector.bbox with
    | .ok b => some b
    | .error _ => none
  | .error _ => none

/-- Scenario amplifier 1 (NumPy backend): 10x20 data region at raw-detector
box `(0,0)-(9,19)`, no flip (all transforms the identity on its box). -/
def scenarioAmpOneNp : UntrimmedAmplifier :=
  { full := .np ⟨⟨20, 10, fun _ _ => 1⟩, .pt 0 0⟩
    amplifier_id := 1
    readout_transform := .make_identity ⟨0, 0, 9, 19⟩
    data_bbox := ⟨0, 0, 9, 19⟩
    data_physical_bbox := ⟨0, 0, 9, 19⟩
    horizontal_overscan_bbox := ⟨0, 0, 9, 19⟩
    vertical_overscan_bbox := ⟨0, 0, 9, 19⟩
    horizontal_prescan_bbox := ⟨0, 0, 9, 19⟩
    raw_detector_transform := .make_identity ⟨0, 0, 9, 19⟩ }

/-- Scenario amplifier 2 (NumPy backend): 10x20 data region at raw-detector
box `(10,0)-(19,19)` with `flip_x=true`. -/
def scenarioAmpTwoNp : UntrimmedAmplifier :=
  { full := .np ⟨⟨20, 10, fun _ _ => 2⟩, .pt 10 0⟩
    amplifier_id := 2
    readout_transform := .make_identity ⟨10, 0, 19, 19⟩
    data_bbox := ⟨10, 0, 19, 19⟩
    data_physical_bbox := ⟨10, 0, 19, 19⟩
    horizontal_overscan_bbox := ⟨10, 0, 19, 19⟩
    vertical_overscan_bbox := ⟨10, 0, 19, 19⟩
    horizontal_prescan_bbox := ⟨10, 0, 19, 19⟩
    raw_detector_transform := ⟨⟨10, 0, 19, 19⟩, ⟨10, 0, 19, 19⟩, true, false⟩ }

/-- The complete two-amplifier scenario set on the NumPy backend. -/
def scenarioSetNp : UnassembledUntrimmedAmplifierSet :=
  ⟨[scenarioAmpOneNp, scenarioAmpTwoNp], true⟩

/-- Scenario amplifier 1 with a box-only payload (same geometry). -/
def scenarioAmpOneBox : UntrimmedAmplifier :=
  { scenarioAmpOneNp with full := .boxOnly ⟨0, 0, 9, 19⟩ }

/-- Scenario amplifier 2 with a box-only payload (same geometry). -/
def scenarioAmpTwoBox : UntrimmedAmplifier :=
  { scenarioAmpTwoNp with full := .boxOnly ⟨10, 0, 19, 19⟩ }

/-- The complete two-amplifier scenario set on the box-only backend. -/
def scenarioSetBox : UnassembledUntrimmedAmplifierSet :=
  ⟨[scenarioAmpOneBox, scenarioAmpTwoBox], true⟩

/-- C1: on the pixel-bearing NumPy backend the example scenario does NOT
assemble: the canvas is `amp.data.make_empty(detector_bbox)`, where
`amp.data` is a `subimage` result whose `_bbox_min` is a whole `Box2I`
(`make_empty` both ignores the computed detector box `(0,0)-(19,19)` and
propagates that poisoned minimum), and the first loop iteration's
`detector.assign(new_amp.data)` raises `TypeError` evaluating
`new_amp.data`'s `bbox` (again a `subimage` result).  Both amplifiers are
constructible (their constructor asserts pass: `copy` re-runs `__init__`
and succeeds).  The geometry itself is as the spec intends: on the box-only
backend (whose `make_empty` honors its box and whose sections always report
a box) the same scenario assembles into a canvas with bounding box
`(0,0)-(19,19)`, and amplifier 2's raw-detector transform maps its pre-flip
pixel column 0 (the column box `(10,0)-(10,19)`) to canvas column 19. -/
theorem untrimmed_assembly_example_scenario :
    scenarioAmpOneNp.copy = .ok scenarioAmpOneNp ∧
    scenarioAmpTwoNp.copy = .ok scenarioAmpTwoNp ∧
    scenarioSetNp.assemble_into_untrimmed = .error .typeError ∧
    untrimmedDetectorBboxOf scenarioSetBox.assemble_into_untrimmed =
      some ⟨0, 0, 19, 19⟩ ∧
    (scenarioAmpTwoBox.raw_detector_transform.for_subimage
        ⟨10, 0, 10, 19⟩).output_bbox = ⟨19, 0, 19, 19⟩ := by
  refine ⟨rfl, rfl, rfl, by decide, by decide⟩

/-- A trimmed NumPy-backed amplifier whose 10x5 data region sits at
`(0,-10)-(9,-6)` with identity transforms. -/
def trimAmpLow : TrimmedAmplifier :=
  { data := .np ⟨⟨5, 10, fun _ _ => 1⟩, .pt 0 (-10)⟩
    amplifier_id := 1
    readout_transform := .make_identity ⟨0, -10, 9, -6⟩
    horizontal_overscan_is_at_min := false
    vertical_overscan_is_at_min := false
    horizontal_prescan_is_at_min := false
    physical_transform := .make_identity ⟨0, -10, 9, -6⟩ }

/-- A trimmed NumPy-backed amplifier whose 10x20 data region sits at
`(0,0)-(9,19)` with identity transforms. -/
def trimAmpHigh : TrimmedAmplifier :=
  { data := .np ⟨⟨20, 10, fun _ _ => 2⟩, .pt 0 0⟩
    amplifier_id := 2
    readout_transform := .make_identity ⟨0, 0, 9, 19⟩
    horizontal_overscan_is_at_min := false
    vertical_overscan_is_at_min := false
    horizontal_prescan_is_at_min := false
    physical_transform := .make_identity ⟨0, 0, 9, 19⟩ }

/-- A complete two-member trimmed NumPy set whose target-box union
`(0,-10)-(9,19)` is strictly larger than the last member's data box. -/
def trimSetNp : UnassembledTrimmedAmplifierSet := ⟨[trimAmpLow, trimAmpHigh], true⟩

/-- C2: on the NumPy backend the canvas box does not equal the union of the
members' `physical_transform.output_bbox`.  For `trimSetNp` the union is
`(0,-10)-(9,19)`, but `NumPyImageSection.make_empty` ignores that box and
allocates the canvas as a zeroed copy of the last member's data array at its
own minimum point, so assembly succeeds (the first member's region happens
to slice to a window of matching shape under Python's negative-index
wrapping) and returns a canvas with bounding box `(0,0)-(9,19)`.  Both
members are constructible (`copy` re-runs `__init__` and succeeds). -/
theorem trimmed_assembly_canvas_bbox_not_union :
    trimAmpLow.copy = .ok trimAmpLow ∧
    trimAmpHigh.copy = .ok trimAmpHigh ∧
    unionBoxes (trimSetNp.amps.map (fun a => a.physical_transform.output_bbox)) =
      ⟨0, -10, 9, 19⟩ ∧
    trimmedDetectorBboxOf trimSetNp.assemble_into_trimmed = some ⟨0, 0, 9, 19⟩ ∧
    (⟨0, 0, 9, 19⟩ : Box) ≠ ⟨0, -10, 9, 19⟩ := by
  refine ⟨rfl, rfl, by decide, by decide, by decide⟩

/-- The spec's `TrimmedAmplifier` invariant:
`readout_transform.input_bbox == physical_transform.input_bbox == data.bbox`
(in particular the data section's `bbox` evaluates without error). -/
def TrimmedAmplifier.invariant (a : TrimmedAmplifier) : Prop :=
  a.data.bbox = .ok a.readout_transform.input_bbox ∧
  a.data.bbox = .ok a.physical_transform.input_bbox

/-- The spec's `UntrimmedAmplifier` invariant:
`readout_transform.input_bbox == raw_detector_transform.input_bbox ==
full.bbox` (in particular the full section's `bbox` evaluates without
error). -/
def UntrimmedAmplifier.invariant (a : UntrimmedAmplifier) : Prop :=
  a.full.bbox = .ok a.readout_transform.input_bbox ∧
  a.full.bbox = .ok a.raw_detector_transform.input_bbox

/-- Splitting a successful `Except` bind. -/
theorem except_bind_ok {α β : Type} {ma : Except PyErr α} {f : α → Except PyErr β}
    {b : β} (h : (ma >>= f) = .ok b) : ∃ a, ma = .ok a ∧ f a = .ok b := by
  cases ma with
  | ok a => exact ⟨a, rfl, h⟩
  | error e => exact Except.noConfusion h

/-- A successful run of the `TrimmedAmplifier` constructor yields the
invariant (its asserts are exactly the invariant). -/
theorem trimmedMkChecked_ok_invariant
    {d : ImageSection} {i : Int} {rt : ImageSectionTransform} {f1 f2 f3 : Bool}
    {pt : ImageSectionTransform} {a : TrimmedAmplifier}
    (h : TrimmedAmplifier.mkChecked d i rt f1 f2 f3 pt = .ok a) : a.invariant := by
  unfold TrimmedAmplifier.mkChecked at h
  obtain ⟨b, hb, h2⟩ := except_bind_ok h
  split at h2
  case isTrue hc =>
    cases h2
    exact ⟨by rw [hb, hc.1], by rw [hb, hc.2]⟩
  case isFalse => exact Except.noConfusion h2

/-- A successful run of the `UntrimmedAmplifier` constructor yields the
invariant. -/
theorem untrimmedMkChecked_ok_invariant
    {f : ImageSection} {i : Int} {rt : ImageSectionTransform}
    {db dpb b1 b2 b3 : Box} {rdt : ImageSectionTransform} {a : UntrimmedAmplifier}
    (h : UntrimmedAmplifier.mkChecked f i rt db dpb b1 b2 b3 rdt = .ok a) :
    a.invariant := by
  unfold UntrimmedAmplifier.mkChecked at h
  obtain ⟨b, hb, h2⟩ := except_bind_ok h
  split at h2
  case isTrue hc =>
    cases h2
    exact ⟨by rw [hb, hc.1], by rw [hb, hc.2.1]⟩
  case isFalse => exact Except.noConfusion h2

/-- C4: every operation that produces an amplifier preserves the amplifier
invariant — construction, `copy`, `without_images`, `trimmed_view`,
`into_readout_coordinates`, `into_physical_coordinates` and
`into_raw_detector_coordinates`, for both amplifier variants.  (The
constructors re-assert the invariant, so any operation that completes
normally yields an amplifier satisfying it; the operations that can return
`self` — `without_images` on an image-less amplifier, and the trimmed
`trimmed_view` — preserve it from the input.) -/
theorem amplifier_operations_preserve_invariant :
    (∀ d i rt f1 f2 f3 pt a, TrimmedAmplifier.mkChecked d i rt f1 f2 f3 pt = .ok a →
      a.invariant) ∧
    (∀ f i rt db dpb b1 b2 b3 rdt a,
      UntrimmedAmplifier.mkChecked f i rt db dpb b1 b2 b3 rdt = .ok a →
      a.invariant) ∧
    (∀ a b, TrimmedAmplifier.copy a = .ok b → b.invariant) ∧
    (∀ a b, a.invariant → TrimmedAmplifier.without_images a = .ok b → b.invariant) ∧
    (∀ a, a.invariant → (TrimmedAmplifier.trimmed_view a).invariant) ∧
    (∀ a v b, TrimmedAmplifier.into_readout_coordinates a v = .ok b → b.invariant) ∧
    (∀ a v b, TrimmedAmplifier.into_physical_coordinates a v = .ok b →
      b.invariant) ∧
    (∀ a b, UntrimmedAmplifier.copy a = .ok b → b.invariant) ∧
    (∀ a b, a.invariant → UntrimmedAmplifier.without_images a = .ok b →
      b.invariant) ∧
    (∀ a t, UntrimmedAmplifier.trimmed_view a = .ok t → t.invariant) ∧
    (∀ a v b, UntrimmedAmplifier.into_readout_coordinates a v = .ok b →
      b.invariant) ∧
    (∀ a v b, UntrimmedAmplifier.into_raw_detector_coordinates a v = .ok b →
      b.invariant) := by
  refine ⟨?_, ?_, ?_, ?_, ?_, ?_, ?_, ?_, ?_, ?_, ?_, ?_⟩
  · intro d i rt f1 f2 f3 pt a h
    exact trimmedMkChecked_ok_invariant h
  · intro f i rt db dpb b1 b2 b3 rdt a h
    exact untrimmedMkChecked_ok_invariant h
  · intro a b h
    exact trimmedMkChecked_ok_invariant h
  · intro a b hinv h
    unfold TrimmedAmplifier.without_images at h
    split at h
    · cases h; exact hinv
    · obtain ⟨nd, _, h2⟩ := except_bind_ok h
      exact trimmedMkChecked_ok_invariant h2
  · intro a hinv
    exact hinv
  · intro a v b h
    exact Except.noConfusion h
  · intro a v b h
    unfold TrimmedAmplifier.into_physical_coordinates at h
    obtain ⟨nd, _, h2⟩ := except_bind_ok h
    obtain ⟨nb, _, h3⟩ := except_bind_ok h2
    exact trimmedMkChecked_ok_invariant h3
  · intro a b h
    exact untrimmedMkChecked_ok_invariant h
  · intro a b hinv h
    unfold UntrimmedAmplifier.without_images at h
    split at h
    · cases h; exact hinv
    · obtain ⟨nf, _, h2⟩ := except_bind_ok h
      exact untrimmedMkChecked_ok_invariant h2
  · intro a t h
    unfold UntrimmedAmplifier.trimmed_view at h
    obtain ⟨d, _, h2⟩ := except_bind_ok h
    obtain ⟨hb, _, h3⟩ := except_bind_ok h2
    obtain ⟨vb, _, h4⟩ := except_bind_ok h3
    obtain ⟨pb, _, h5⟩ := except_bind_ok h4
    obtain ⟨phys, _, h6⟩ := except_bind_ok h5
    exact trimmedMkChecked_ok_invariant h6
  · intro a v b h
    unfold UntrimmedAmplifier.into_readout_coordinates at h
    obtain ⟨nf, _, h2⟩ := except_bind_ok h
    obtain ⟨nb, _, h3⟩ := except_bind_ok h2
    exact untrimmedMkChecked_ok_invariant h3
  · intro a v b h
    unfold UntrimmedAmplifier.into_raw_detector_coordinates at h
    obtain ⟨nf, _, h2⟩ := except_bind_ok h
    obtain ⟨nb, _, h3⟩ := except_bind_ok h2
    exact untrimmedMkChecked_ok_invariant h3

/-- A concrete box-only trimmed amplifier used as witness input. -/
def witnessTrim : TrimmedAmplifier :=
  { data := .boxOnly ⟨0, 0, 3, 3⟩
    amplifier_id := 1
    readout_transform := .make_identity ⟨0, 0, 3, 3⟩
    horizontal_overscan_is_at_min := false
    vertical_overscan_is_at_min := false
    horizontal_prescan_is_at_min := false
    physical_transform := .make_identity ⟨0, 0, 3, 3⟩ }

/-- A concrete box-only untrimmed amplifier used as witness input. -/
def witnessUntrim : UntrimmedAmplifier :=
  { full := .boxOnly ⟨0, 0, 3, 3⟩
    amplifier_id := 2
    readout_transform := .make_identity ⟨0, 0, 3, 3⟩
    data_bbox := ⟨0, 0, 2, 3⟩
    data_physical_bbox := ⟨100, 100, 102, 103⟩
    horizontal_overscan_bbox := ⟨3, 0, 3, 3⟩
    vertical_overscan_bbox := ⟨0, 4, 2, 4⟩
    horizontal_prescan_bbox := ⟨3, 0, 3, 3⟩
    raw_detector_transform := .make_identity ⟨0, 0, 3, 3⟩ }

/-- C4 witness: the theorem applied at concrete constructor runs and a
concrete `without_images` run, with every hypothesis discharged. -/
theorem amplifier_operations_preserve_invariant_witness :
    witnessTrim.invariant ∧ witnessUntrim.invariant := by
  have h := amplifier_operations_preserve_invariant
  have h1 : witnessTrim.invariant :=
    h.1 witnessTrim.data witnessTrim.amplifier_id witnessTrim.readout_transform
      false false false witnessTrim.physical_transform witnessTrim rfl
  have h2 : witnessUntrim.invariant :=
    h.2.1 witnessUntrim.full witnessUntrim.amplifier_id
      witnessUntrim.readout_transform witnessUntrim.data_bbox
      witnessUntrim.data_physical_bbox witnessUntrim.horizontal_overscan_bbox
      witnessUntrim.vertical_overscan_bbox witnessUntrim.horizontal_prescan_bbox
      witnessUntrim.raw_detector_transform witnessUntrim rfl
  exact ⟨h.2.2.2.2.1 witnessTrim h1,
    h.2.2.2.2.2.2.2.2.1 witnessUntrim witnessUntrim h2 rfl⟩

/-- Splitting a successful `Except.map`. -/
theorem except_map_ok {α β : Type} {f : α → β} {e : Except PyErr α} {b : β}
    (h : e.map f = .ok b) : ∃ a, e = .ok a ∧ b = f a := by
  cases e with
  | ok a =>
    cases h
    exact ⟨a, rfl, rfl⟩
  | error e => exact Except.noConfusion h

/-- Source: `l.getLastD a` is among `a :: l`. -/
theorem getLastD_mem_cons {α : Type} : ∀ (l : List α) (a : α), l.getLastD a ∈ a :: l
  | [], a => by simp
  | b :: t, a => by
    rw [List.getLastD_cons]
    exact List.mem_cons_of_mem a (getLastD_mem_cons t b)

/-- The amplifier left bound after the first assembly loop — the last
member — is a member of the set. -/
theorem getLastD_cons_self_mem {α : Type} (a0 : α) (rest : List α) :
    (a0 :: rest).getLastD a0 ∈ a0 :: rest := by
  rw [List.getLastD_cons]
  exact getLastD_mem_cons rest a0

/-- The data box a member occupies after `into_raw_detector_coordinates`:
`raw_detector_transform.for_subimage(data_bbox).output_bbox` — exactly the
region `assemble_into_untrimmed` assigns into the canvas for that member. -/
def UntrimmedAmplifier.rawDataBox (a : UntrimmedAmplifier) : Box :=
  (a.raw_detector_transform.for_subimage a.data_bbox).output_bbox

/-- Reading one pixel of a section (by absolute coordinates): afw sections
read their pixel function, numpy sections with a genuine minimum point index
the array relative to it, and sections with no addressable origin — box-only
sections, and numpy sections whose stored `_bbox_min` is a whole box (their
`bbox` raises) — read as 0. -/
def ImageSection.pixAt : ImageSection → Int → Int → Int
  | .boxOnly _, _, _ => 0
  | .np s, x, y =>
    match s.bbox_min with
    | .pt mx my => s.arr.pix (y - my).toNat (x - mx).toNat
    | .box _ => 0
  | .afw s, x, y => s.img.pix x y

/-- Inverting a successful afw `subimage`. -/
theorem afw_subimage_ok {s : AfwImageSection} {b : Box} {r : ImageSection}
    (h : (ImageSection.afw s).subimage b = .ok r) :
    r = .afw ⟨⟨b, s.img.pix⟩⟩ := by
  unfold ImageSection.subimage at h
  obtain ⟨u, hu, hr⟩ := except_map_ok h
  unfold AfwImageSection.subimage at hu
  split at hu
  · cases hu; exact hr
  · exact Except.noConfusion hu

/-- Inverting a successful afw `assign`: the result covers the same box and
overrides exactly the pixels inside `other`'s box. -/
theorem afw_assign_ok {d : AfwImageSection} {o : AfwImage} {r : AfwImageSection}
    (h : d.assign o = .ok r) :
    r = ⟨⟨d.img.bbox,
      fun x y => if o.bbox.containsPt x y then o.pix x y else d.img.pix x y⟩⟩ := by
  unfold AfwImageSection.assign at h
  split at h
  · cases h; rfl
  · exact Except.noConfusion h

/-- Inverting a successful `UntrimmedAmplifier` constructor run: the result
carries exactly the supplied fields. -/
theorem UntrimmedAmplifier.mkChecked_ok_eq
    {f : ImageSection} {i : Int} {rt : ImageSectionTransform}
    {db dpb b1 b2 b3 : Box} {rdt : ImageSectionTransform} {a : UntrimmedAmplifier}
    (h : UntrimmedAmplifier.mkChecked f i rt db dpb b1 b2 b3 rdt = .ok a) :
    a = ⟨f, i, rt, db, dpb, b1, b2, b3, rdt⟩ := by
  unfold UntrimmedAmplifier.mkChecked at h
  obtain ⟨b, hb, h2⟩ := except_bind_ok h
  split at h2
  · cases h2; rfl
  · exact Except.noConfusion h2

/-- A successful `into_raw_detector_coordinates` on an afw-backed amplifier
yields an afw-backed amplifier whose data box is `rawDataBox`. -/
theorem UntrimmedAmplifier.into_raw_ok_afw {a : UntrimmedAmplifier}
    {sa : AfwImageSection} {b : UntrimmedAmplifier}
    (hfa : a.full = .afw sa)
    (h : a.into_raw_detector_coordinates true = .ok b) :
    b.full = .afw (sa.apply_transform a.raw_detector_transform) ∧
    b.data_bbox = a.rawDataBox := by
  unfold UntrimmedAmplifier.into_raw_detector_coordinates at h
  obtain ⟨nf, hnf, h2⟩ := except_bind_ok h
  rw [hfa] at hnf
  cases hnf
  obtain ⟨nb, hnb, hmk⟩ := except_bind_ok h2
  have hb := UntrimmedAmplifier.mkChecked_ok_eq hmk
  subst hb
  exact ⟨rfl, rfl⟩

/-- A successful `data` view of an afw-backed amplifier is the afw section
over its data box sharing the full image's pixels. -/
theorem UntrimmedAmplifier.data_ok_afw {b : UntrimmedAmplifier}
    {fi : AfwImageSection} (hf : b.full = .afw fi) {nd : ImageSection}
    (h : b.data = .ok nd) : nd = .afw ⟨⟨b.data_bbox, fi.img.pix⟩⟩ := by
  unfold UntrimmedAmplifier.data at h
  rw [hf] at h
  exact afw_subimage_ok h

/-- One untrimmed assembly step on an afw canvas only writes inside the
member's `rawDataBox`: any pixel outside it keeps its value. -/
theorem untrimmedAssemblyStep_afw_preserves {d : AfwImageSection}
    {acc : List UntrimmedAmplifier} {a : UntrimmedAmplifier}
    {sa : AfwImageSection} {st' : ImageSection × List UntrimmedAmplifier}
    {x y : Int} (hfa : a.full = .afw sa)
    (h : untrimmedAssemblyStep (.afw d, acc) a = .ok st')
    (hout : ¬ a.rawDataBox.containsPt x y) :
    ∃ d', st'.1 = .afw d' ∧ d'.img.pix x y = d.img.pix x y := by
  unfold untrimmedAssemblyStep at h
  obtain ⟨na, hna, h2⟩ := except_bind_ok h
  obtain ⟨hnaf, hnab⟩ := UntrimmedAmplifier.into_raw_ok_afw hfa hna
  obtain ⟨nd, hnd, h3⟩ := except_bind_ok h2
  have hndv := UntrimmedAmplifier.data_ok_afw hnaf hnd
  subst hndv
  obtain ⟨det, hdet, h4⟩ := except_bind_ok h3
  unfold ImageSection.assign at hdet
  obtain ⟨ob, hob, hdet1⟩ := except_bind_ok hdet
  obtain ⟨r1, hr1, hdet2⟩ := except_map_ok hdet1
  have hr1v := afw_assign_ok hr1
  subst hr1v
  subst hdet2
  cases h4
  refine ⟨_, rfl, ?_⟩
  show (if (na.data_bbox).containsPt x y then _ else d.img.pix x y) = d.img.pix x y
  rw [hnab, if_neg hout]

/-- Folding the untrimmed assembly steps over afw-backed members only
writes inside the members' `rawDataBox`es. -/
theorem untrimmedAssemblyFold_preserves {x y : Int} :
    ∀ (l : List UntrimmedAmplifier) (d : AfwImageSection)
      (acc : List UntrimmedAmplifier)
      (out : ImageSection × List UntrimmedAmplifier),
      (∀ a ∈ l, (∃ s, a.full = ImageSection.afw s) ∧
        ¬ a.rawDataBox.containsPt x y) →
      l.foldlM untrimmedAssemblyStep (ImageSection.afw d, acc) = .ok out →
      ∃ d', out.1 = ImageSection.afw d' ∧ d'.img.pix x y = d.img.pix x y
  | [], d, acc, out, _, h => by
    rw [List.foldlM_nil] at h
    cases h
    exact ⟨d, rfl, rfl⟩
  | a :: l, d, acc, out, hall, h => by
    rw [List.foldlM_cons] at h
    obtain ⟨st', hstep, hrest⟩ := except_bind_ok h
    obtain ⟨⟨sa, hfa⟩, houta⟩ := hall a (List.mem_cons_self a l)
    obtain ⟨d1, hst1, hpix1⟩ := untrimmedAssemblyStep_afw_preserves hfa hstep houta
    obtain ⟨det, acc'⟩ := st'
    subst hst1
    obtain ⟨d2, hout2, hpix2⟩ := untrimmedAssemblyFold_preserves l d1 acc' out
      (fun b hb => hall b (List.mem_cons_of_mem a hb)) hrest
    exact ⟨d2, hout2, hpix2.trans hpix1⟩

/-- A successful `AssembledUntrimmedAmplifierSet` constructor run keeps the
given detector canvas unchanged. -/
theorem mkFromDetector_untrimmed_detector {d : ImageSection}
    {l : List UntrimmedAmplifier} {r : AssembledUntrimmedAmplifierSet}
    (h : AssembledUntrimmedAmplifierSet.mkFromDetector d l = .ok r) :
    r.detector = d := by
  unfold AssembledUntrimmedAmplifierSet.mkFromDetector at h
  obtain ⟨na, _, h2⟩ := except_bind_ok h
  cases h2
  rfl

/-- C9: when `assemble_into_untrimmed` succeeds on a set of afw-backed
(pixel-bearing) amplifiers, only each member's data region is assigned into
the canvas (`detector.assign(new_amp.data)`), so every canvas pixel outside
all members' raw-detector data boxes — in particular the overscan and
prescan areas — keeps the zero value the empty canvas was created with. -/
theorem assemble_into_untrimmed_zero_outside_data
    (s : UnassembledUntrimmedAmplifierSet) (r : AssembledUntrimmedAmplifierSet)
    (x y : Int)
    (hafw : ∀ a ∈ s.amps, ∃ i, a.full = ImageSection.afw i)
    (hok : s.assemble_into_untrimmed = .ok r)
    (hout : ∀ a ∈ s.amps, ¬ a.rawDataBox.containsPt x y) :
    r.detector.pixAt x y = 0 := by
  unfold UnassembledUntrimmedAmplifierSet.assemble_into_untrimmed at hok
  split at hok
  · exact Except.noConfusion hok
  · rcases hs : s.amps with _ | ⟨a0, rest⟩
    · rw [hs] at hok; exact Except.noConfusion hok
    · rw [hs] at hok hafw hout
      obtain ⟨lastData, hld, hok2⟩ := except_bind_ok hok
      obtain ⟨ls, hlast⟩ := hafw _ (getLastD_cons_self_mem a0 rest)
      have hldv := UntrimmedAmplifier.data_ok_afw hlast hld
      subst hldv
      obtain ⟨p, hfold, hok3⟩ := except_bind_ok hok2
      obtain ⟨d2, hp1, hpix⟩ := untrimmedAssemblyFold_preserves (a0 :: rest) _ _ p
        (fun a ha => ⟨hafw a ha, hout a ha⟩) hfold
      obtain ⟨det, namps⟩ := p
      have hdet := mkFromDetector_untrimmed_detector hok3
      rw [hdet]
      rw [show det = ImageSection.afw d2 from hp1]
      exact hpix

/-- A concrete afw-backed untrimmed amplifier: full box `(0,0)-(2,2)` of
nines, data region `(0,0)-(1,2)`, overscan/prescan column at `x = 2`,
identity transforms. -/
def witnessAfwAmp : UntrimmedAmplifier :=
  { full := .afw ⟨⟨⟨0, 0, 2, 2⟩, fun _ _ => 9⟩⟩
    amplifier_id := 1
    readout_transform := .make_identity ⟨0, 0, 2, 2⟩
    data_bbox := ⟨0, 0, 1, 2⟩
    data_physical_bbox := ⟨0, 0, 1, 2⟩
    horizontal_overscan_bbox := ⟨2, 0, 2, 2⟩
    vertical_overscan_bbox := ⟨2, 0, 2, 2⟩
    horizontal_prescan_bbox := ⟨2, 0, 2, 2⟩
    raw_detector_transform := .make_identity ⟨0, 0, 2, 2⟩ }

/-- A complete one-member afw-backed untrimmed set. -/
def witnessAfwSet : UnassembledUntrimmedAmplifierSet := ⟨[witnessAfwAmp], true⟩

/-- C9 witness: on the concrete afw-backed set, assembly succeeds and the
overscan pixel `(2, 0)` of the canvas — outside the member's data region —
reads 0, by the theorem applied with every hypothesis discharged. -/
theorem assemble_into_untrimmed_zero_outside_data_witness :
    witnessAfwSet.assemble_into_untrimmed.map
      (fun r => r.detector.pixAt 2 0) = .ok 0 := by
  cases heq : witnessAfwSet.assemble_into_untrimmed with
  | ok r =>
    have hA : ∀ a ∈ witnessAfwSet.amps, ∃ i, a.full = ImageSection.afw i := by
      intro a ha
      rw [show witnessAfwSet.amps = [witnessAfwAmp] from rfl,
        List.mem_singleton] at ha
      subst ha
      exact ⟨_, rfl⟩
    have hB : ∀ a ∈ witnessAfwSet.amps, ¬ a.rawDataBox.containsPt 2 0 := by
      intro a ha
      rw [show witnessAfwSet.amps = [witnessAfwAmp] from rfl,
        List.mem_singleton] at ha
      subst ha
      decide
    have h0 := assemble_into_untrimmed_zero_outside_data witnessAfwSet r 2 0
      hA heq hB
    simp only [Except.map]
    exact congrArg Except.ok h0
  | error e =>
    have hbool : exceptIsOk witnessAfwSet.assemble_into_untrimmed = true := rfl
    rw [heq] at hbool
    exact Bool.noConfusion hbool

/-!  Machinery for the `IncompleteSet` iff claim: every failure after the
completeness guard uses a different error value. -/

/-- Binding an error short-circuits. -/
theorem except_error_bind {α β : Type} (e : PyErr) (f : α → Except PyErr β) :
    ((Except.error e : Except PyErr α) >>= f) = .error e := rfl

/-- Binding a success applies the continuation. -/
theorem except_ok_bind {α β : Type} (a : α) (f : α → Except PyErr β) :
    ((Except.ok a : Except PyErr α) >>= f) = f a := rfl

/-- Source: `Except.ok` is never the `IncompleteSet` failure. -/
theorem noInc_ok {α : Type} (a : α) :
    (Except.ok a : Except PyErr α) ≠ .error .incompleteSet := fun h =>
  Except.noConfusion h

/-- An error other than `incompleteSet` is not the `IncompleteSet` failure. -/
theorem noInc_error {α : Type} {e : PyErr} (h : e ≠ .incompleteSet) :
    (Except.error e : Except PyErr α) ≠ .error .incompleteSet := by
  intro hc
  injection hc with h'
  exact h h'

/-- The error value behind a non-`IncompleteSet` error. -/
theorem noInc_error_elim {α : Type} {e : PyErr}
    (h1 : (Except.error e : Except PyErr α) ≠ .error .incompleteSet) :
    e ≠ .incompleteSet := fun he => h1 (by rw [he])

/-- Binds preserve freedom from the `IncompleteSet` failure. -/
theorem noInc_bind {α β : Type} {ma : Except PyErr α} {f : α → Except PyErr β}
    (h1 : ma ≠ .error .incompleteSet) (h2 : ∀ a, f a ≠ .error .incompleteSet) :
    (ma >>= f) ≠ .error .incompleteSet := by
  cases ma with
  | ok a =>
    rw [except_ok_bind]
    exact h2 a
  | error e =>
    rw [except_error_bind]
    exact noInc_error (noInc_error_elim h1)

/-- Source: `Except.map` preserves freedom from the `IncompleteSet` failure. -/
theorem noInc_map {α β : Type} {f : α → β} {ma : Except PyErr α}
    (h1 : ma ≠ .error .incompleteSet) :
    ma.map f ≠ .error .incompleteSet := by
  cases ma with
  | ok a => exact noInc_ok (f a)
  | error e =>
    rw [show Except.map f (Except.error e) = (Except.error e : Except PyErr β) from rfl]
    exact noInc_error (noInc_error_elim h1)

/-- Source: the `bbox` property never raises `IncompleteSet`. -/
theorem bbox_noInc (s : ImageSection) : s.bbox ≠ .error .incompleteSet := by
  cases s with
  | boxOnly bb => exact noInc_ok _
  | afw sa => exact noInc_ok _
  | np sn =>
    obtain ⟨arr, bm⟩ := sn
    cases bm with
    | pt x y => exact noInc_ok _
    | box b => exact noInc_error (by decide)

/-- Source: `without_image` never raises `IncompleteSet`. -/
theorem without_image_noInc (s : ImageSection) :
    s.without_image ≠ .error .incompleteSet := by
  unfold ImageSection.without_image
  exact noInc_map (bbox_noInc s)

/-- Source: `subimage` never raises `IncompleteSet`. -/
theorem subimage_noInc (s : ImageSection) (b : Box) :
    s.subimage b ≠ .error .incompleteSet := by
  cases s with
  | boxOnly bb =>
    simp only [ImageSection.subimage]
    split
    · exact noInc_ok _
    · exact noInc_error (by decide)
  | np sn =>
    simp only [ImageSection.subimage]
    apply noInc_map
    obtain ⟨arr, bm⟩ := sn
    cases bm with
    | pt x y => exact noInc_ok _
    | box b2 => exact noInc_error (by decide)
  | afw sa =>
    simp only [ImageSection.subimage]
    apply noInc_map
    simp only [AfwImageSection.subimage]
    split
    · exact noInc_ok _
    · exact noInc_error (by decide)

/-- Source: `assign` never raises `IncompleteSet`. -/
theorem assign_noInc (s other : ImageSection) :
    s.assign other ≠ .error .incompleteSet := by
  cases s with
  | boxOnly bb =>
    simp only [ImageSection.assign]
    refine noInc_bind (bbox_noInc other) (fun ob => ?_)
    split
    · exact noInc_ok _
    · exact noInc_error (by decide)
  | np sn =>
    simp only [ImageSection.assign]
    refine noInc_bind (bbox_noInc other) (fun ob => ?_)
    obtain ⟨arr, bm⟩ := sn
    cases bm with
    | box b2 => exact noInc_error (by decide)
    | pt mx my =>
      cases other with
      | boxOnly b2 => exact noInc_error (by decide)
      | afw s2 => exact noInc_error (by decide)
      | np s2 =>
        simp only [ImageSection.image]
        apply noInc_map
        simp only [NumPyImageSection.assign]
        split
        · exact noInc_ok _
        · exact noInc_error (by decide)
  | afw sa =>
    simp only [ImageSection.assign]
    refine noInc_bind (bbox_noInc other) (fun ob => ?_)
    cases other with
    | boxOnly b2 => exact noInc_error (by decide)
    | np s2 => exact noInc_error (by decide)
    | afw s2 =>
      simp only [ImageSection.image]
      apply noInc_map
      simp only [AfwImageSection.assign]
      split
      · exact noInc_ok _
      · exact noInc_error (by decide)

/-- Source: `apply_transform` never raises `IncompleteSet`. -/
theorem apply_transform_noInc (s : ImageSection) (t : ImageSectionTransform) :
    s.apply_transform t ≠ .error .incompleteSet := by
  cases s with
  | boxOnly bb =>
    simp only [ImageSection.apply_transform]
    split
    · exact noInc_ok _
    · exact noInc_error (by decide)
  | np sn => exact noInc_ok _
  | afw sa => exact noInc_ok _

/-- Source: `with_new_image` never raises `IncompleteSet`. -/
theorem with_new_image_noInc (s : ImageSection) (p : Payload) :
    s.with_new_image p ≠ .error .incompleteSet := by
  cases p with
  | none => exact without_image_noInc s
  | afwImg img =>
    simp only [ImageSection.with_new_image]
    refine noInc_bind (bbox_noInc s) (fun b => ?_)
    split
    · exact noInc_ok _
    · exact noInc_error (by decide)
  | npArr a =>
    simp only [ImageSection.with_new_image]
    refine noInc_bind (bbox_noInc s) (fun b => ?_)
    split
    · exact noInc_ok _
    · exact noInc_error (by decide)

/-- The `TrimmedAmplifier` constructor never raises `IncompleteSet`. -/
theorem trimmed_mkChecked_noInc (d : ImageSection) (i : Int)
    (rt : ImageSectionTransform) (f1 f2 f3 : Bool) (pt : ImageSectionTransform) :
    TrimmedAmplifier.mkChecked d i rt f1 f2 f3 pt ≠ .error .incompleteSet := by
  unfold TrimmedAmplifier.mkChecked
  refine noInc_bind (bbox_noInc d) (fun b => ?_)
  split
  · exact noInc_ok _
  · exact noInc_error (by decide)

/-- The `UntrimmedAmplifier` constructor never raises `IncompleteSet`. -/
theorem untrimmed_mkChecked_noInc (f : ImageSection) (i : Int)
    (rt : ImageSectionTransform) (db dpb b1 b2 b3 : Box)
    (rdt : ImageSectionTransform) :
    UntrimmedAmplifier.mkChecked f i rt db dpb b1 b2 b3 rdt ≠
      .error .incompleteSet := by
  unfold UntrimmedAmplifier.mkChecked
  refine noInc_bind (bbox_noInc f) (fun b => ?_)
  split
  · exact noInc_ok _
  · exact noInc_error (by decide)

/-- Source: `ImageSectionTransform.__post_init__` never raises `IncompleteSet`. -/
theorem mkTransformChecked_noInc (i o : Box) (fx fy : Bool) :
    mkTransformChecked i o fx fy ≠ .error .incompleteSet := by
  unfold mkTransformChecked
  split
  · exact noInc_ok _
  · exact noInc_error (by decide)

/-- The boundary accessors never raise `IncompleteSet`. -/
theorem boundaries_noInc (a : UntrimmedAmplifier) :
    a.horizontal_overscan_boundary ≠ .error .incompleteSet ∧
    a.vertical_overscan_boundary ≠ .error .incompleteSet ∧
    a.horizontal_prescan_boundary ≠ .error .incompleteSet := by
  unfold UntrimmedAmplifier.horizontal_overscan_boundary
    UntrimmedAmplifier.vertical_overscan_boundary
    UntrimmedAmplifier.horizontal_prescan_boundary
  refine ⟨?_, ?_, ?_⟩ <;>
    (split
     · exact noInc_ok _
     · split
       · exact noInc_ok _
       · exact noInc_error (by decide))

/-- No `TrimmedAmplifier` operation raises `IncompleteSet`. -/
theorem trimmed_ops_noInc (a : TrimmedAmplifier) (v : Bool) (p : Payload) :
    a.copy ≠ .error .incompleteSet ∧
    a.without_images ≠ .error .incompleteSet ∧
    a.into_readout_coordinates v ≠ .error .incompleteSet ∧
    a.into_physical_coordinates v ≠ .error .incompleteSet ∧
    a.with_new_data_image p ≠ .error .incompleteSet := by
  refine ⟨trimmed_mkChecked_noInc _ _ _ _ _ _ _, ?_, noInc_error (by decide), ?_, ?_⟩
  · unfold TrimmedAmplifier.without_images
    split
    · exact noInc_ok _
    · exact noInc_bind (without_image_noInc _)
        (fun nd => trimmed_mkChecked_noInc _ _ _ _ _ _ _)
  · unfold TrimmedAmplifier.into_physical_coordinates
    exact noInc_bind (apply_transform_noInc _ _)
      (fun nd => noInc_bind (bbox_noInc _)
        (fun nb => trimmed_mkChecked_noInc _ _ _ _ _ _ _))
  · unfold TrimmedAmplifier.with_new_data_image
    exact noInc_bind (with_new_image_noInc _ _)
      (fun nd => trimmed_mkChecked_noInc _ _ _ _ _ _ _)

/-- No `UntrimmedAmplifier` operation raises `IncompleteSet`. -/
theorem untrimmed_ops_noInc (a : UntrimmedAmplifier) (v : Bool) (p : Payload) :
    a.data ≠ .error .incompleteSet ∧
    a.copy ≠ .error .incompleteSet ∧
    a.without_images ≠ .error .incompleteSet ∧
    a.trimmed_view ≠ .error .incompleteSet ∧
    a.into_readout_coordinates v ≠ .error .incompleteSet ∧
    a.into_raw_detector_coordinates v ≠ .error .incompleteSet ∧
    a.with_new_full_image p ≠ .error .incompleteSet := by
  refine ⟨subimage_noInc _ _,
    untrimmed_mkChecked_noInc _ _ _ _ _ _ _ _ _, ?_, ?_, ?_, ?_, ?_⟩
  · unfold UntrimmedAmplifier.without_images
    split
    · exact noInc_ok _
    · exact noInc_bind (without_image_noInc _)
        (fun nf => untrimmed_mkChecked_noInc _ _ _ _ _ _ _ _ _)
  · unfold UntrimmedAmplifier.trimmed_view
    refine noInc_bind (subimage_noInc _ _) (fun d => ?_)
    refine noInc_bind (boundaries_noInc a).1 (fun hb => ?_)
    refine noInc_bind (boundaries_noInc a).2.1 (fun vb => ?_)
    refine noInc_bind (boundaries_noInc a).2.2 (fun pb => ?_)
    refine noInc_bind (mkTransformChecked_noInc _ _ _ _) (fun phys => ?_)
    exact trimmed_mkChecked_noInc _ _ _ _ _ _ _
  · unfold UntrimmedAmplifier.into_readout_coordinates
    exact noInc_bind (apply_transform_noInc _ _)
      (fun nf => noInc_bind (bbox_noInc _)
        (fun nb => untrimmed_mkChecked_noInc _ _ _ _ _ _ _ _ _))
  · unfold UntrimmedAmplifier.into_raw_detector_coordinates
    exact noInc_bind (apply_transform_noInc _ _)
      (fun nf => noInc_bind (bbox_noInc _)
        (fun nb => untrimmed_mkChecked_noInc _ _ _ _ _ _ _ _ _))
  · unfold UntrimmedAmplifier.with_new_full_image
    exact noInc_bind (with_new_image_noInc _ _)
      (fun nf => untrimmed_mkChecked_noInc _ _ _ _ _ _ _ _ _)

/-- Source: `List.mapM` preserves freedom from the `IncompleteSet` failure. -/
theorem mapM_noInc {α β : Type} (f : α → Except PyErr β)
    (hf : ∀ a, f a ≠ .error .incompleteSet) :
    ∀ l : List α, l.mapM f ≠ .error .incompleteSet
  | [] => by
    rw [List.mapM_nil]
    exact noInc_ok _
  | a :: t => by
    rw [List.mapM_cons]
    exact noInc_bind (hf a)
      (fun y => noInc_bind (mapM_noInc f hf t) (fun l' => noInc_ok _))

/-- Source: `List.foldlM` preserves freedom from the `IncompleteSet` failure. -/
theorem foldlM_noInc {σ α : Type} (step : σ → α → Except PyErr σ)
    (hs : ∀ st a, step st a ≠ .error .incompleteSet) :
    ∀ (l : List α) (init : σ), l.foldlM step init ≠ .error .incompleteSet
  | [], init => by
    rw [List.foldlM_nil]
    exact noInc_ok _
  | a :: t, init => by
    rw [List.foldlM_cons]
    exact noInc_bind (hs init a) (fun st' => foldlM_noInc step hs t st')

/-- The trimmed assembly loop body never raises `IncompleteSet`. -/
theorem trimmedAssemblyStep_noInc (st : ImageSection × List TrimmedAmplifier)
    (amp : TrimmedAmplifier) :
    trimmedAssemblyStep st amp ≠ .error .incompleteSet := by
  unfold trimmedAssemblyStep
  refine noInc_bind (trimmed_ops_noInc amp true .none).2.2.2.1 (fun na => ?_)
  exact noInc_bind (assign_noInc _ _) (fun det => noInc_ok _)

/-- The untrimmed assembly loop body never raises `IncompleteSet`. -/
theorem untrimmedAssemblyStep_noInc (st : ImageSection × List UntrimmedAmplifier)
    (amp : UntrimmedAmplifier) :
    untrimmedAssemblyStep st amp ≠ .error .incompleteSet := by
  unfold untrimmedAssemblyStep
  refine noInc_bind (untrimmed_ops_noInc amp true .none).2.2.2.2.2.1 (fun na => ?_)
  refine noInc_bind (untrimmed_ops_noInc na true .none).1 (fun nd => ?_)
  exact noInc_bind (assign_noInc _ _) (fun det => noInc_ok _)

/-- The `AssembledTrimmedAmplifierSet` constructor never raises
`IncompleteSet`. -/
theorem mkFromDetector_trimmed_noInc (d : ImageSection)
    (l : List TrimmedAmplifier) :
    AssembledTrimmedAmplifierSet.mkFromDetector d l ≠ .error .incompleteSet := by
  unfold AssembledTrimmedAmplifierSet.mkFromDetector
  refine noInc_bind (mapM_noInc _ (fun amp => ?_) l) (fun na => noInc_ok _)
  refine noInc_bind (trimmed_ops_noInc amp true .none).2.2.2.1 (fun pa => ?_)
  refine noInc_bind (bbox_noInc _) (fun db => ?_)
  refine noInc_bind (subimage_noInc _ _) (fun sub => ?_)
  exact (trimmed_ops_noInc pa true sub.image).2.2.2.2

/-- The `AssembledUntrimmedAmplifierSet` constructor never raises
`IncompleteSet`. -/
theorem mkFromDetector_untrimmed_noInc (d : ImageSection)
    (l : List UntrimmedAmplifier) :
    AssembledUntrimmedAmplifierSet.mkFromDetector d l ≠ .error .incompleteSet := by
  unfold AssembledUntrimmedAmplifierSet.mkFromDetector
  refine noInc_bind (mapM_noInc _ (fun amp => ?_) l) (fun na => noInc_ok _)
  refine noInc_bind (untrimmed_ops_noInc amp true .none).2.2.2.2.2.1 (fun ra => ?_)
  refine noInc_bind (bbox_noInc _) (fun fb => ?_)
  refine noInc_bind (subimage_noInc _ _) (fun sub => ?_)
  exact (untrimmed_ops_noInc ra true sub.image).2.2.2.2.2.2

/-- On a complete, non-empty trimmed set, `assemble_into_trimmed` never
raises `IncompleteSet` (any later failure uses another error value). -/
theorem assemble_into_trimmed_noInc_of_complete
    (s : UnassembledTrimmedAmplifierSet)
    (hc : s.is_complete = true) (hne : s.amps ≠ []) :
    s.assemble_into_trimmed ≠ .error .incompleteSet := by
  unfold UnassembledTrimmedAmplifierSet.assemble_into_trimmed
  have hcond : ¬(¬s.is_complete = true ∨ s.amps.isEmpty = true) := by
    rintro (h1 | h2)
    · exact h1 hc
    · rcases hs : s.amps with _ | ⟨a0, rest⟩
      · exact hne hs
      · rw [hs] at h2
        exact Bool.noConfusion h2
  rw [if_neg hcond]
  rcases hs : s.amps with _ | ⟨a0, rest⟩
  · exact absurd hs hne
  · refine noInc_bind (foldlM_noInc _ trimmedAssemblyStep_noInc _ _) (fun p => ?_)
    obtain ⟨det, namps⟩ := p
    exact mkFromDetector_trimmed_noInc det namps

/-- On a complete, non-empty untrimmed set, `assemble_into_untrimmed` never
raises `IncompleteSet`. -/
theorem assemble_into_untrimmed_noInc_of_complete
    (s : UnassembledUntrimmedAmplifierSet)
    (hc : s.is_complete = true) (hne : s.amps ≠ []) :
    s.assemble_into_untrimmed ≠ .error .incompleteSet := by
  unfold UnassembledUntrimmedAmplifierSet.assemble_into_untrimmed
  have hcond : ¬(¬s.is_complete = true ∨ s.amps.isEmpty = true) := by
    rintro (h1 | h2)
    · exact h1 hc
    · rcases hs : s.amps with _ | ⟨a0, rest⟩
      · exact hne hs
      · rw [hs] at h2
        exact Bool.noConfusion h2
  rw [if_neg hcond]
  rcases hs : s.amps with _ | ⟨a0, rest⟩
  · exact absurd hs hne
  · refine noInc_bind (untrimmed_ops_noInc _ true .none).1 (fun lastData => ?_)
    refine noInc_bind (foldlM_noInc _ untrimmedAssemblyStep_noInc _ _) (fun p => ?_)
    obtain ⟨det, namps⟩ := p
    exact mkFromDetector_untrimmed_noInc det namps

/-- The reported bounding box of a section when its `bbox` evaluation
succeeds (`none` when it raises). -/
def ImageSection.bboxOpt (s : ImageSection) : Option Box :=
  match s.bbox with
  | .ok b => some b
  | .error _ => none

/-- The spec's validity conditions on an `UntrimmedAmplifier`'s geometry
(data model §3 and the boundary-accessor consistency property): the full
section reports a bounding box that contains the data box, the data box is
proper, each overscan/prescan box lies strictly on one side of the data box,
and the physical data box has the data box's size.  Amplifiers violating
these are invalid per the spec (their construction or use trips an assert /
`__post_init__` check). -/
def UntrimmedAmplifier.wellFormedGeometry (a : UntrimmedAmplifier) : Prop :=
  a.full.bboxOpt.isSome = true ∧
  (a.full.bboxOpt.getD ⟨0, 0, -1, -1⟩).contains a.data_bbox ∧
  (a.data_bbox.x0 ≤ a.data_bbox.x1 ∧ a.data_bbox.y0 ≤ a.data_bbox.y1) ∧
  (a.horizontal_overscan_bbox.x1 < a.data_bbox.x0 ∨
    a.horizontal_overscan_bbox.x0 > a.data_bbox.x1) ∧
  (a.vertical_overscan_bbox.y1 < a.data_bbox.y0 ∨
    a.vertical_overscan_bbox.y0 > a.data_bbox.y1) ∧
  (a.horizontal_prescan_bbox.x1 < a.data_bbox.x0 ∨
    a.horizontal_prescan_bbox.x0 > a.data_bbox.x1) ∧
  a.data_bbox.sizeEq a.data_physical_bbox

instance (a : UntrimmedAmplifier) : Decidable a.wellFormedGeometry := by
  unfold UntrimmedAmplifier.wellFormedGeometry
  infer_instance

/-- For a box-only- or afw-backed amplifier whose full section's box
contains the data box, the `data` view succeeds and its `bbox` evaluates to
exactly the data box.  (NumPy-backed amplifiers are excluded: their `data`
subimage stores a whole box as `_bbox_min`, so reading its `bbox` raises
`TypeError`.) -/
theorem UntrimmedAmplifier.data_ok_of_wf (a : UntrimmedAmplifier)
    (hback : (∃ b, a.full = ImageSection.boxOnly b) ∨
      (∃ i, a.full = ImageSection.afw i))
    (hcont : (a.full.bboxOpt.getD ⟨0, 0, -1, -1⟩).contains a.data_bbox) :
    ∃ d, a.data = .ok d ∧ d.bbox = .ok a.data_bbox := by
  unfold UntrimmedAmplifier.data
  rcases hback with ⟨bb, hfull⟩ | ⟨fi, hfull⟩
  · rw [hfull] at hcont ⊢
    have hc : bb.contains a.data_bbox := hcont
    refine ⟨.boxOnly a.data_bbox, ?_, rfl⟩
    simp only [ImageSection.subimage]
    rw [if_pos hc]
  · rw [hfull] at hcont ⊢
    have hc : fi.img.bbox.contains a.data_bbox := hcont
    refine ⟨.afw ⟨⟨a.data_bbox, fi.img.pix⟩⟩, ?_, rfl⟩
    simp only [ImageSection.subimage, AfwImageSection.subimage]
    rw [if_pos hc]
    rfl

/-- Under the validity conditions, a box-only- or afw-backed amplifier's
`trimmed_view` succeeds.  (A NumPy-backed one raises `TypeError` instead:
the `TrimmedAmplifier` constructor's assert evaluates the data subimage's
`bbox`.) -/
theorem UntrimmedAmplifier.trimmed_view_ok_of_wf (a : UntrimmedAmplifier)
    (hback : (∃ b, a.full = ImageSection.boxOnly b) ∨
      (∃ i, a.full = ImageSection.afw i))
    (h : a.wellFormedGeometry) : ∃ t, a.trimmed_view = .ok t := by
  obtain ⟨hsome, hcont, hprop, hh, hv, hp, hsz⟩ := h
  obtain ⟨d, hd, hdb⟩ := a.data_ok_of_wf hback hcont
  have hhb : ∃ v1, a.horizontal_overscan_boundary = .ok v1 := by
    unfold UntrimmedAmplifier.horizontal_overscan_boundary
    by_cases hc1 : a.horizontal_overscan_bbox.x1 < a.data_bbox.x0
    · rw [if_pos hc1]; exact ⟨_, rfl⟩
    · rw [if_neg hc1, if_pos (hh.resolve_left hc1)]; exact ⟨_, rfl⟩
  have hvb : ∃ v2, a.vertical_overscan_boundary = .ok v2 := by
    unfold UntrimmedAmplifier.vertical_overscan_boundary
    by_cases hc1 : a.vertical_overscan_bbox.y1 < a.data_bbox.y0
    · rw [if_pos hc1]; exact ⟨_, rfl⟩
    · rw [if_neg hc1, if_pos (hv.resolve_left hc1)]; exact ⟨_, rfl⟩
  have hpb : ∃ v3, a.horizontal_prescan_boundary = .ok v3 := by
    unfold UntrimmedAmplifier.horizontal_prescan_boundary
    by_cases hc1 : a.horizontal_prescan_bbox.x1 < a.data_bbox.x0
    · rw [if_pos hc1]; exact ⟨_, rfl⟩
    · rw [if_neg hc1, if_pos (hp.resolve_left hc1)]; exact ⟨_, rfl⟩
  obtain ⟨v1, hb1⟩ := hhb
  obtain ⟨v2, hb2⟩ := hvb
  obtain ⟨v3, hb3⟩ := hpb
  have hphys : mkTransformChecked a.data_bbox a.data_physical_bbox
      a.raw_detector_transform.flip_x a.raw_detector_transform.flip_y =
      .ok ⟨a.data_bbox, a.data_physical_bbox,
        a.raw_detector_transform.flip_x, a.raw_detector_transform.flip_y⟩ := by
    unfold mkTransformChecked
    rw [if_pos hsz]
  have heq : a.trimmed_view = TrimmedAmplifier.mkChecked d a.amplifier_id
      (a.readout_transform.for_subimage a.data_bbox)
      (decide (v1 = a.data_bbox.x0)) (decide (v2 = a.data_bbox.y0))
      (decide (v3 = a.data_bbox.x0))
      ⟨a.data_bbox, a.data_physical_bbox, a.raw_detector_transform.flip_x,
        a.raw_detector_transform.flip_y⟩ := by
    unfold UntrimmedAmplifier.trimmed_view
    rw [hd, except_ok_bind, hb1, except_ok_bind, hb2, except_ok_bind,
      hb3, except_ok_bind, hphys, except_ok_bind]
  unfold TrimmedAmplifier.mkChecked at heq
  rw [hdb, except_ok_bind] at heq
  rw [if_pos ⟨rfl, rfl⟩] at heq
  exact ⟨_, heq⟩

/-- A `mapM` whose steps all succeed succeeds, with an empty result exactly
for an empty input. -/
theorem mapM_ok_of_all {α β : Type} (f : α → Except PyErr β) :
    ∀ l : List α, (∀ a ∈ l, ∃ y, f a = .ok y) →
      ∃ l', l.mapM f = .ok l' ∧ (l' = [] ↔ l = [])
  | [], _ => ⟨[], by rw [List.mapM_nil]; rfl, by simp⟩
  | a :: t, h => by
    obtain ⟨y, hy⟩ := h a (List.mem_cons_self a t)
    obtain ⟨l', hl', _⟩ := mapM_ok_of_all f t
      (fun b hb => h b (List.mem_cons_of_mem a hb))
    refine ⟨y :: l', ?_, by simp⟩
    rw [List.mapM_cons, hy, except_ok_bind, hl', except_ok_bind]
    rfl

/-- Under the validity conditions on every member, a box-only- or
afw-backed set's `trimmed_view` succeeds, preserving the completeness flag
and emptiness. -/
theorem trimmed_view_set_ok_of_wf (s : UnassembledUntrimmedAmplifierSet)
    (hwf : ∀ a ∈ s.amps, ((∃ b, a.full = ImageSection.boxOnly b) ∨
      (∃ i, a.full = ImageSection.afw i)) ∧ a.wellFormedGeometry) :
    ∃ l', s.trimmed_view = .ok ⟨l', s.is_complete⟩ ∧ (l' = [] ↔ s.amps = []) := by
  obtain ⟨l', hl', hnil⟩ := mapM_ok_of_all _ s.amps
    (fun a ha =>
      UntrimmedAmplifier.trimmed_view_ok_of_wf a (hwf a ha).1 (hwf a ha).2)
  refine ⟨l', ?_, hnil⟩
  unfold UnassembledUntrimmedAmplifierSet.trimmed_view
  rw [hl', except_ok_bind]

/-- An incomplete NumPy-backed untrimmed set with one well-formed member:
full 4x4 array of ones at `(0,0)`, data box `(0,0)-(2,2)`, overscan and
prescan boxes strictly outside the data box, identity transforms, physical
data box of the data box's size. -/
def incompleteNpAmp : UntrimmedAmplifier :=
  { full := .np ⟨⟨4, 4, fun _ _ => 1⟩, .pt 0 0⟩
    amplifier_id := 7
    readout_transform := .make_identity ⟨0, 0, 3, 3⟩
    data_bbox := ⟨0, 0, 2, 2⟩
    data_physical_bbox := ⟨10, 10, 12, 12⟩
    horizontal_overscan_bbox := ⟨3, 0, 3, 3⟩
    vertical_overscan_bbox := ⟨0, 3, 2, 3⟩
    horizontal_prescan_bbox := ⟨3, 0, 3, 3⟩
    raw_detector_transform := .make_identity ⟨0, 0, 3, 3⟩ }

/-- The incomplete one-member NumPy-backed untrimmed set built on
`incompleteNpAmp`. -/
def incompleteNpSet : UnassembledUntrimmedAmplifierSet := ⟨[incompleteNpAmp], false⟩

/-- C6: the two direct assembly methods raise `IncompleteSet` exactly when
the set is marked incomplete or has no members (conjuncts 1-2,
unconditionally — the completeness guard runs first and every later failure
uses another error value).  For an untrimmed set's `assemble_into_trimmed`
the same equivalence holds when every member is box-only- or afw-backed and
satisfies the spec's validity conditions (conjunct 3).  On the NumPy
backend, however, the equivalence FAILS: `trimmed_view` runs before the
completeness check, each member's `data` subimage stores a whole `Box2I` as
its `_bbox_min`, and the `TrimmedAmplifier` constructor's assert raises
`TypeError` evaluating `data.bbox` — so the concrete incomplete
NumPy-backed set `incompleteNpSet` raises `TypeError`, not `IncompleteSet`
(conjunct 4). -/
theorem assemble_incompleteSet_behavior
    (st : UnassembledTrimmedAmplifierSet) (su : UnassembledUntrimmedAmplifierSet)
    (su2 : UnassembledUntrimmedAmplifierSet)
    (hwf : ∀ a ∈ su2.amps, ((∃ b, a.full = ImageSection.boxOnly b) ∨
      (∃ i, a.full = ImageSection.afw i)) ∧ a.wellFormedGeometry) :
    (st.assemble_into_trimmed = .error .incompleteSet ↔
      (¬st.is_complete ∨ st.amps = [])) ∧
    (su.assemble_into_untrimmed = .error .incompleteSet ↔
      (¬su.is_complete ∨ su.amps = [])) ∧
    (su2.assemble_into_trimmed = .error .incompleteSet ↔
      (¬su2.is_complete ∨ su2.amps = [])) ∧
    (¬incompleteNpSet.is_complete ∧
      incompleteNpSet.assemble_into_trimmed = .error .typeError) := by
  refine ⟨⟨?_, ?_⟩, ⟨?_, ?_⟩, ?_, by decide, rfl⟩
  · intro h
    by_contra hc
    push_neg at hc
    exact assemble_into_trimmed_noInc_of_complete st hc.1 hc.2 h
  · intro h
    unfold UnassembledTrimmedAmplifierSet.assemble_into_trimmed
    rcases h with h1 | h2
    · rw [if_pos (Or.inl h1)]
    · rw [if_pos (Or.inr (by rw [h2]; rfl))]
  · intro h
    by_contra hc
    push_neg at hc
    exact assemble_into_untrimmed_noInc_of_complete su hc.1 hc.2 h
  · intro h
    unfold UnassembledUntrimmedAmplifierSet.assemble_into_untrimmed
    rcases h with h1 | h2
    · rw [if_pos (Or.inl h1)]
    · rw [if_pos (Or.inr (by rw [h2]; rfl))]
  · obtain ⟨l', htv, hnil⟩ := trimmed_view_set_ok_of_wf su2 hwf
    have hred : su2.assemble_into_trimmed =
        (UnassembledTrimmedAmplifierSet.mk l' su2.is_complete).assemble_into_trimmed := by
      unfold UnassembledUntrimmedAmplifierSet.assemble_into_trimmed
      rw [htv, except_ok_bind]
    rw [hred]
    constructor
    · intro h
      by_contra hc
      push_neg at hc
      exact assemble_into_trimmed_noInc_of_complete ⟨l', su2.is_complete⟩ hc.1
        (fun hnilp => hc.2 (hnil.mp hnilp)) h
    · intro h
      unfold UnassembledTrimmedAmplifierSet.assemble_into_trimmed
      rcases h with h1 | h2
      · rw [if_pos (Or.inl h1)]
      · rw [if_pos (Or.inr (by rw [show l' = [] from hnil.mpr h2]; rfl))]

/-- A concrete well-formed box-only untrimmed amplifier. -/
def witnessWfAmp : UntrimmedAmplifier :=
  { full := .boxOnly ⟨0, 0, 3, 3⟩
    amplifier_id := 1
    readout_transform := .make_identity ⟨0, 0, 3, 3⟩
    data_bbox := ⟨0, 0, 2, 2⟩
    data_physical_bbox := ⟨10, 10, 12, 12⟩
    horizontal_overscan_bbox := ⟨3, 0, 3, 3⟩
    vertical_overscan_bbox := ⟨0, 3, 2, 3⟩
    horizontal_prescan_bbox := ⟨3, 0, 3, 3⟩
    raw_detector_transform := .make_identity ⟨0, 0, 3, 3⟩ }

/-- An empty, incomplete trimmed set. -/
def witnessTrimSet : UnassembledTrimmedAmplifierSet := ⟨[], false⟩

/-- A complete one-member untrimmed set of well-formed box-only members. -/
def witnessUntrimSet : UnassembledUntrimmedAmplifierSet := ⟨[witnessWfAmp], true⟩

/-- C6 witness: the theorem applied at a concrete empty incomplete trimmed
set and a concrete complete well-formed box-only untrimmed set, with the
backend and validity hypotheses discharged. -/
theorem assemble_incompleteSet_behavior_witness :
    (witnessTrimSet.assemble_into_trimmed = .error .incompleteSet ↔
      (¬witnessTrimSet.is_complete ∨ witnessTrimSet.amps = [])) ∧
    (witnessUntrimSet.assemble_into_untrimmed = .error .incompleteSet ↔
      (¬witnessUntrimSet.is_complete ∨ witnessUntrimSet.amps = [])) ∧
    (witnessUntrimSet.assemble_into_trimmed = .error .incompleteSet ↔
      (¬witnessUntrimSet.is_complete ∨ witnessUntrimSet.amps = [])) ∧
    (¬incompleteNpSet.is_complete ∧
      incompleteNpSet.assemble_into_trimmed = .error .typeError) :=
  assemble_incompleteSet_behavior witnessTrimSet witnessUntrimSet
    witnessUntrimSet (by
      intro a ha
      rw [show witnessUntrimSet.amps = [witnessWfAmp] from rfl,
        List.mem_singleton] at ha
      subst ha
      exact ⟨Or.inl ⟨_, rfl⟩, by decide⟩)

/-- C3 witness: the theorem applied to a concrete trimmed amplifier. -/
theorem trimmed_into_readout_type_error_witness :
    witnessTrim.into_readout_coordinates true = .error .typeError :=
  trimmed_into_readout_coordinates_always_type_error witnessTrim true

/-- C10 witness: the theorem applied to concrete assembled sets. -/
theorem with_new_detector_image_none_witness :
    (AssembledTrimmedAmplifierSet.mk (.boxOnly ⟨0, 0, 3, 3⟩)
      []).with_new_detector_image .none = .error .attributeError ∧
    (AssembledUntrimmedAmplifierSet.mk (.boxOnly ⟨0, 0, 3, 3⟩)
      []).with_new_detector_image .none = .error .attributeError :=
  with_new_detector_image_none_attribute_error
    (AssembledTrimmedAmplifierSet.mk (.boxOnly ⟨0, 0, 3, 3⟩) [])
    (AssembledUntrimmedAmplifierSet.mk (.boxOnly ⟨0, 0, 3, 3⟩) [])
